import Mathlib

/-!
Verification of the medla-projects incremental ingestion pipeline.

This file shallow-embeds the pipeline's core functions in Lean 4 and proves
properties about them:

* `parse_date` — `app/utils/date_utils.py` (DateNormalizer)
* `get_next_page_data` — `LansstyrelsenCollector._get_next_page_data`
  (PostbackNavigator)
* `fetch_case_details` — `LansstyrelsenCollector.fetch_case_details`
  (CaseDetailFetcher)
* `parse_cases` / `fetch_data` — `LansstyrelsenCollector._parse_cases` /
  `LansstyrelsenCollector.fetch_data`
* the per-partition resume loop of `fetch_cases_background`
  (`app/routers/projects.py`, IngestionCoordinator)
* the reconciliation steps of `fetch_cases_background` and
  `fetch_all_cases`
* the detail-fetch attempt-counter updates of
  `fetch_case_details_background` and `fetch_bookmarked_details`
* `batch_categorize_with_progress` — `app/services/categorization.py`
  (ClassificationStage)

Python strings are modelled as `List Char`; Python `datetime` values as the
`PyDateTime` structure; functions that may raise are modelled with
`Except String`, where the error value names the Python exception class;
network I/O and third-party library calls are inputs (oracles) supplied to
the embedded functions.

All definitions are executable and are translated from the repository's
source, not from the specification's words.
-/

set_option maxHeartbeats 1000000
set_option maxRecDepth 10000

/-! ## Characters and Python string helpers -/

/-- ASCII decimal digit test, as used by the parsing code (`str.isdigit`
restricted to ASCII, and the `\d` class of `strptime`'s regexes). -/
def isDigitChar (c : Char) : Bool := 48 ≤ c.toNat && c.toNat ≤ 57

/-- Numeric value of an ASCII digit character. -/
def digitVal (c : Char) : Nat := c.toNat - 48

/-- Python `str.strip` whitespace class (space, tab, LF, CR, VT, FF). -/
def isPySpace (c : Char) : Bool :=
  c.toNat == 32 || c.toNat == 9 || c.toNat == 10 || c.toNat == 13 ||
  c.toNat == 11 || c.toNat == 12

/-- Drop the longest suffix whose characters satisfy `p`. -/
def dropTrailingWhile (p : Char → Bool) (s : List Char) : List Char :=
  (s.reverse.dropWhile p).reverse

/-- Python `str.strip()`. -/
def pyStrip (s : List Char) : List Char :=
  dropTrailingWhile isPySpace (s.dropWhile isPySpace)

/-- Python `s.split()[0]` on a stripped, nonempty string: the first
whitespace-delimited token. -/
def firstWhitespaceToken (s : List Char) : List Char :=
  s.takeWhile (fun c => !(isPySpace c))

/-- True when every character of `s` is an ASCII digit and `s` is nonempty
(Python `str.isdigit` on ASCII input). -/
def pyIsDigitStr (s : List Char) : Bool :=
  !(s.isEmpty) && s.all isDigitChar

/-! ## Python datetime model -/

/-- A Python `datetime.datetime` value. -/
structure PyDateTime where
  year : Nat
  month : Nat
  day : Nat
  hour : Nat
  minute : Nat
  second : Nat
  microsecond : Nat
deriving Repr, DecidableEq

/-- Gregorian leap-year rule, as implemented by `datetime`. -/
def isLeapYear (y : Nat) : Bool :=
  (y % 4 == 0 && y % 100 != 0) || y % 400 == 0

/-- Days in a month, as enforced by the `datetime` constructor. -/
def daysInMonth (y m : Nat) : Nat :=
  if m == 2 then (if isLeapYear y then 29 else 28)
  else if m == 4 || m == 6 || m == 9 || m == 11 then 30
  else 31

/-- The `datetime.datetime` constructor: returns `none` exactly when the
constructor would raise `ValueError`. -/
def mkPyDateTime (y m d hh mi ss us : Nat) : Option PyDateTime :=
  if 1 ≤ y && y ≤ 9999 && 1 ≤ m && m ≤ 12 && 1 ≤ d && d ≤ daysInMonth y m
      && hh ≤ 23 && mi ≤ 59 && ss ≤ 59 && us ≤ 999999 then
    some ⟨y, m, d, hh, mi, ss, us⟩
  else none

/-- Validity of a calendar date for `datetime`. -/
def validCalendarDate (y m d : Nat) : Bool :=
  1 ≤ y && y ≤ 9999 && 1 ≤ m && m ≤ 12 && 1 ≤ d && d ≤ daysInMonth y m

/-- Python `datetime` comparison is lexicographic on the components. -/
def pyDTLe (a b : PyDateTime) : Bool :=
  if a.year ≠ b.year then a.year < b.year
  else if a.month ≠ b.month then a.month < b.month
  else if a.day ≠ b.day then a.day < b.day
  else if a.hour ≠ b.hour then a.hour < b.hour
  else if a.minute ≠ b.minute then a.minute < b.minute
  else if a.second ≠ b.second then a.second < b.second
  else a.microsecond ≤ b.microsecond

/-- Python `a > b` on datetimes. -/
def pyDTGt (a b : PyDateTime) : Bool := !(pyDTLe a b)

/-! ## strptime: the five formats used by `parse_date` -/

/-- `%Y` of `_strptime`: exactly four consecutive digits. -/
def parse4Digits : List Char → Option (Nat × List Char)
  | c1 :: c2 :: c3 :: c4 :: rest =>
    if isDigitChar c1 && isDigitChar c2 && isDigitChar c3 && isDigitChar c4 then
      some (((digitVal c1 * 10 + digitVal c2) * 10 + digitVal c3) * 10 + digitVal c4, rest)
    else none
  | _ => none

/-- A two-digit-or-one-digit numeric field, mirroring the ordered regex
alternation `_strptime` uses for `%m`, `%d`, `%H`, `%M`, `%S`: a two-digit
match is preferred when its value satisfies `ok2`, otherwise a single digit
satisfying `ok1` is consumed. -/
def parseTwoOrOne (ok2 ok1 : Nat → Bool) : List Char → Option (Nat × List Char)
  | [] => none
  | [c] =>
    if isDigitChar c && ok1 (digitVal c) then some (digitVal c, []) else none
  | c1 :: c2 :: rest =>
    if isDigitChar c1 && isDigitChar c2 && ok2 (digitVal c1 * 10 + digitVal c2) then
      some (digitVal c1 * 10 + digitVal c2, rest)
    else if isDigitChar c1 && ok1 (digitVal c1) then
      some (digitVal c1, c2 :: rest)
    else none

/-- `%m`: regex `1[0-2]|0[1-9]|[1-9]`. -/
def parseMonthField : List Char → Option (Nat × List Char) :=
  parseTwoOrOne (fun v => 1 ≤ v && v ≤ 12) (fun v => 1 ≤ v && v ≤ 9)

/-- `%d`: regex `3[01]|[12]\d|0[1-9]|[1-9]`. -/
def parseDayField : List Char → Option (Nat × List Char) :=
  parseTwoOrOne (fun v => 1 ≤ v && v ≤ 31) (fun v => 1 ≤ v && v ≤ 9)

/-- `%H`: regex `2[0-3]|[0-1]\d|\d`. -/
def parseHourField : List Char → Option (Nat × List Char) :=
  parseTwoOrOne (fun v => v ≤ 23) (fun _ => true)

/-- `%M`: regex `[0-5]\d|\d`. -/
def parseMinuteField : List Char → Option (Nat × List Char) :=
  parseTwoOrOne (fun v => v ≤ 59) (fun _ => true)

/-- `%S`: regex `6[0-1]|[0-5]\d|\d` (leap seconds pass the regex and are
rejected by the `datetime` constructor). -/
def parseSecondField : List Char → Option (Nat × List Char) :=
  parseTwoOrOne (fun v => v ≤ 61) (fun _ => true)

/-- `%f`: regex `[0-9]{1,6}`, right-padded with zeros to microseconds. -/
def parseFracField (s : List Char) : Option (Nat × List Char) :=
  let ds := s.takeWhile isDigitChar
  if 1 ≤ ds.length && ds.length ≤ 6 then
    some ((ds.foldl (fun a c => a * 10 + digitVal c) 0) * 10 ^ (6 - ds.length),
      s.dropWhile isDigitChar)
  else none

/-- Consume one expected literal character. -/
def expectChar (c : Char) : List Char → Option (List Char)
  | c2 :: rest => if c2 == c then some rest else none
  | [] => none

/-- The `%Y-%m-%d` leading portion shared by all five formats. -/
def parseYMDPrefix (s : List Char) : Option (Nat × Nat × Nat × List Char) :=
  match parse4Digits s with
  | none => none
  | some (y, s1) =>
    match expectChar '-' s1 with
    | none => none
    | some s2 =>
      match parseMonthField s2 with
      | none => none
      | some (m, s3) =>
        match expectChar '-' s3 with
        | none => none
        | some s4 =>
          match parseDayField s4 with
          | none => none
          | some (d, s5) => some (y, m, d, s5)

/-- `datetime.strptime(s, "%Y-%m-%d")`: `none` when `ValueError` is raised. -/
def strptimeDateOnly (s : List Char) : Option PyDateTime :=
  match parseYMDPrefix s with
  | none => none
  | some (y, m, d, rest) =>
    if rest = [] then mkPyDateTime y m d 0 0 0 0 else none

/-- The `%H:%M:%S` portion of the datetime formats. -/
def parseHMSPrefix (s : List Char) : Option (Nat × Nat × Nat × List Char) :=
  match parseHourField s with
  | none => none
  | some (hh, s1) =>
    match expectChar ':' s1 with
    | none => none
    | some s2 =>
      match parseMinuteField s2 with
      | none => none
      | some (mi, s3) =>
        match expectChar ':' s3 with
        | none => none
        | some s4 =>
          match parseSecondField s4 with
          | none => none
          | some (ss, s5) => some (hh, mi, ss, s5)

/-- `datetime.strptime(s, "%Y-%m-%d" ++ sep ++ "%H:%M:%S")`, with `.%f`
appended when `withFrac` is true. `sep` is a space or `T`. -/
def strptimeDateTime (sep : Char) (withFrac : Bool) (s : List Char) : Option PyDateTime :=
  match parseYMDPrefix s with
  | none => none
  | some (y, m, d, r1) =>
    match expectChar sep r1 with
    | none => none
    | some r2 =>
      match parseHMSPrefix r2 with
      | none => none
      | some (hh, mi, ss, r3) =>
        if withFrac then
          match expectChar '.' r3 with
          | none => none
          | some r4 =>
            match parseFracField r4 with
            | none => none
            | some (us, r5) =>
              if r5 = [] then mkPyDateTime y m d hh mi ss us else none
        else
          if r3 = [] then mkPyDateTime y m d hh mi ss 0 else none

/-! ## DateNormalizer: `parse_date` (`app/utils/date_utils.py`) -/

/-- The input domain of `parse_date`: `None`, an already-parsed
`datetime`, or a string. -/
inductive DateInput where
  | pyNone
  | dt (d : PyDateTime)
  | str (s : List Char)

/-- The format list of `parse_date`, tried in source order:
`%Y-%m-%d`, `%Y-%m-%d %H:%M:%S`, `%Y-%m-%d %H:%M:%S.%f`,
`%Y-%m-%dT%H:%M:%S`, `%Y-%m-%dT%H:%M:%S.%f`. -/
def tryFormatsList (s : List Char) : Option PyDateTime :=
  match strptimeDateOnly s with
  | some d => some d
  | none =>
  match strptimeDateTime ' ' false s with
  | some d => some d
  | none =>
  match strptimeDateTime ' ' true s with
  | some d => some d
  | none =>
  match strptimeDateTime 'T' false s with
  | some d => some d
  | none => strptimeDateTime 'T' true s

/-- `parse_date` of `app/utils/date_utils.py`: `None` and the empty string
are falsy and return `None`; a `datetime` is returned unchanged; otherwise
the string is stripped, the five formats are tried in order, and on failure,
when the string contains a hyphen, the part before the first whitespace is
retried as `%Y-%m-%d`. The Python function never raises: every failure path
returns `None`, which the total `Option` result mirrors. -/
def parse_date : DateInput → Option PyDateTime
  | DateInput.pyNone => none
  | DateInput.dt d => some d
  | DateInput.str s0 =>
    if s0 = [] then none
    else
      let s := pyStrip s0
      match tryFormatsList s with
      | some d => some d
      | none =>
        if s.contains '-' then
          strptimeDateOnly (firstWhitespaceToken s)
        else none

/-! ## Renderers for canonical date strings (used to state round-trips) -/

/-- The ASCII digit character for `n < 10`. -/
def digitChar (n : Nat) : Char := Char.ofNat (48 + n)

/-- Zero-padded two-digit rendering. -/
def render2 (n : Nat) : List Char := [digitChar (n / 10), digitChar (n % 10)]

/-- Zero-padded four-digit rendering. -/
def render4 (n : Nat) : List Char :=
  [digitChar (n / 1000), digitChar (n / 100 % 10), digitChar (n / 10 % 10),
   digitChar (n % 10)]

/-- Zero-padded six-digit rendering. -/
def render6 (n : Nat) : List Char :=
  [digitChar (n / 100000), digitChar (n / 10000 % 10), digitChar (n / 1000 % 10),
   digitChar (n / 100 % 10), digitChar (n / 10 % 10), digitChar (n % 10)]

/-- `YYYY-MM-DD`. -/
def renderDateStr (y m d : Nat) : List Char :=
  render4 y ++ '-' :: render2 m ++ '-' :: render2 d

/-- `YYYY-MM-DD` then `sep` then `HH:MM:SS`. -/
def renderDateTimeStr (sep : Char) (y m d hh mi ss : Nat) : List Char :=
  renderDateStr y m d ++ sep :: render2 hh ++ ':' :: render2 mi ++ ':' :: render2 ss

/-- `YYYY-MM-DD` then `sep` then `HH:MM:SS.ffffff`. -/
def renderDateTimeFracStr (sep : Char) (y m d hh mi ss us : Nat) : List Char :=
  renderDateTimeStr sep y m d hh mi ss ++ '.' :: render6 us


/-! ## PostbackNavigator: `LansstyrelsenCollector._get_next_page_data` -/

/-- An `<a>` element as the navigator reads it: its text and its optional
`href` attribute. -/
structure Anchor where
  text : List Char
  href : Option (List Char)
deriving Repr, DecidableEq

/-- Python `link.get('href', '')`: the `href` attribute or the empty
string. -/
def Anchor.hrefOrEmpty (a : Anchor) : List Char := a.href.getD []

/-- A located hidden `<input>` element: its optional `value` attribute
(`tag['value']` raises `KeyError` when the attribute is absent). -/
structure HiddenInput where
  value : Option (List Char)
deriving Repr, DecidableEq

/-- The portions of a results page that `_get_next_page_data` inspects: the
`<tfoot>` pagination footer (the text of its first `<span>`, when one
exists, and its `<a>` elements in document order), and the three hidden
ASP.NET state inputs (`soup.find('input', ...)` results). -/
structure PostbackPage where
  tfoot : Option (Option (List Char) × List Anchor)
  viewstate : Option HiddenInput
  viewstategenerator : Option HiddenInput
  eventvalidation : Option HiddenInput

/-- The next-page form-field bag returned on success. -/
structure PostbackFields where
  viewstate : List Char
  viewstategenerator : List Char
  eventvalidation : List Char
  eventtarget : List Char
  eventargument : List Char
deriving Repr, DecidableEq

/-- Numeric value of a digit string. -/
def digitsVal (s : List Char) : Nat :=
  s.foldl (fun a c => a * 10 + digitVal c) 0

/-- Python `int(s)` for a string argument: strips whitespace, accepts an
optional sign followed by digits; `none` models the `ValueError` raise. -/
def pyInt (s : List Char) : Option Int :=
  match pyStrip s with
  | '-' :: ds => if pyIsDigitStr ds then some (-(Int.ofNat (digitsVal ds))) else none
  | '+' :: ds => if pyIsDigitStr ds then some (Int.ofNat (digitsVal ds)) else none
  | ds => if pyIsDigitStr ds then some (Int.ofNat (digitsVal ds)) else none

/-- Python `str(i)` for an integer. -/
def renderInt (i : Int) : List Char := (toString i).data

/-- Bool test for `needle in hay` (Python substring containment). -/
def containsSub (needle : List Char) : List Char → Bool
  | [] => needle.isEmpty
  | c :: t => List.isPrefixOf needle (c :: t) || containsSub needle t

/-- Python `s.split(sep)` for a one-character separator. -/
def splitOnChar (sep : Char) : List Char → List (List Char)
  | [] => [[]]
  | c :: rest =>
    match splitOnChar sep rest with
    | [] => [[]]
    | r :: rs => if c == sep then [] :: r :: rs else (c :: r) :: rs

/-- The ASCII apostrophe, the quote character of `__doPostBack` hrefs. -/
def apostChar : Char := Char.ofNat 39

/-- The literal `javascript:__doPostBack`. -/
def doPostBackMarker : List Char := ("javascript:__doPostBack").data

/-- The literal `Page$`. -/
def pageMarker : List Char := ("Page$").data

/-- The literal `...`. -/
def ellipsisText : List Char := ("...").data

/-- The body of the page-link scan: a direct link whose stripped text is
`str(current_page + 1)`, or an ellipsis link whose href carries a `Page$`
postback argument. -/
def nextPageLinkPred (currentPage : Int) (link : Anchor) : Bool :=
  pyStrip link.text == renderInt (currentPage + 1)
  || (pyStrip link.text == ellipsisText
      && containsSub pageMarker link.hrefOrEmpty)

/-- `LansstyrelsenCollector._get_next_page_data`. `Except.ok none` models
the Python `return None`, `Except.ok (some fields)` a successful return,
and `Except.error e` an exception raised out of the function (`e` names the
Python exception class). -/
def get_next_page_data (p : PostbackPage) : Except String (Option PostbackFields) :=
  match p.tfoot with
  | none => Except.ok none
  | some (spanText, pageLinks) =>
    match spanText with
    | none => Except.ok none
    | some st =>
      match pyInt st with
      | none => Except.error ("ValueError")
      | some currentPage =>
        if pageLinks.isEmpty then Except.ok none
        else
          match pageLinks.find? (nextPageLinkPred currentPage) with
          | none => Except.ok none
          | some link =>
            let href := link.hrefOrEmpty
            if !(containsSub doPostBackMarker href) then Except.ok none
            else
              let parts := splitOnChar apostChar href
              match parts.get? 1 with
              | none => Except.error ("IndexError")
              | some target =>
                match parts.get? 3 with
                | none => Except.error ("IndexError")
                | some argument =>
                  match p.viewstate, p.viewstategenerator, p.eventvalidation with
                  | some vs, some vsg, some ev =>
                    match vs.value, vsg.value, ev.value with
                    | some v1, some v2, some v3 =>
                      Except.ok (some
                        { viewstate := v1, viewstategenerator := v2,
                          eventvalidation := v3, eventtarget := target,
                          eventargument := argument })
                    | _, _, _ => Except.error ("KeyError")
                  | _, _, _ => Except.ok none


/-! ## CaseDetailFetcher: `LansstyrelsenCollector.fetch_case_details` -/

/-- One `<td>` cell of a detail-page table: its text and its first `<a>`
element, when one exists. -/
structure DetailCell where
  text : List Char
  link : Option Anchor
deriving Repr, DecidableEq

/-- The detail page as the fetcher reads it: its `<table>` elements, each a
list of `<tr>` rows, each a list of `<td>` cells. -/
structure CasePage where
  tables : List (List (List DetailCell))
deriving Repr, DecidableEq

/-- A row of the related-documents table. -/
structure DocumentRec where
  docId : List Char
  title : List Char
  date : List Char
  sender : List Char
  url : Option (List Char)
deriving Repr, DecidableEq

/-- The dictionary produced by the `fetch_case_details` detail parse. -/
structure CaseDetailResult where
  id : List Char
  case_id : List Char
  diarium : List Char
  date : Option (List Char)
  title : List Char
  status : List Char
  decision_date : Option (List Char)
  sender : List Char
  municipality : List Char
  documents : List DocumentRec
  url : List Char
deriving Repr, DecidableEq

/-- The third-party calls `fetch_case_details` makes outside this
repository: `dateutil.parser.parse(s, dayfirst=True)`, supplied as an
oracle (`none` models the parser raising). -/
structure DetailOracle where
  dayfirstParse : List Char → Option PyDateTime

/-- `LansstyrelsenCollector._parse_date`: `None` for falsy or short
strings, `None` for digit-only strings, otherwise the day-first parse of
the stripped string rendered as an ISO date, with parser errors caught. -/
def collector_parse_date (w : DetailOracle) : Option (List Char) → Option (List Char)
  | none => none
  | some ds =>
    if ds.length < 3 then none
    else
      let t := pyStrip ds
      if pyIsDigitStr t then none
      else
        match w.dayfirstParse t with
        | none => none
        | some d => some (renderDateStr d.year d.month d.day)

/-- The overview table scan of `fetch_case_details`: rows with exactly two
cells populate the `details` dict (later keys overwrite earlier ones). -/
def overviewDetails (rows : List (List DetailCell)) : List (List Char × List Char) :=
  rows.foldl (fun acc row =>
    match row with
    | [k, v] => acc ++ [(pyStrip k.text, pyStrip v.text)]
    | _ => acc) []

/-- Python `dict.get`: the value of the last binding of `k`. -/
def dictGet (d : List (List Char × List Char)) (k : List Char) : Option (List Char) :=
  (d.reverse.find? (fun kv => kv.1 == k)).map (fun kv => kv.2)

/-- The portal's base URL. -/
def lansBaseUrl : List Char := ("https://diarium.lansstyrelsen.se").data

/-- The detail-page URL for a numeric portal case id. -/
def caseInfoUrl (case_id : List Char) : List Char :=
  ("https://diarium.lansstyrelsen.se/Case/CaseInfo.aspx?caseID=").data ++ case_id

/-- The documents-table scan of `fetch_case_details`: rows after the header
with at least four cells become document records; the URL requires a link
in the second cell carrying an `href`. -/
def extractDocuments (docTable : List (List DetailCell)) : List DocumentRec :=
  (docTable.drop 1).foldl (fun acc row =>
    match row with
    | c0 :: c1 :: c2 :: c3 :: _ =>
      let doc_url := match c1.link with
        | some a =>
          match a.href with
          | some h => some (lansBaseUrl ++ '/' :: h)
          | none => none
        | none => none
      acc ++ [{ docId := pyStrip c0.text, title := pyStrip c1.text,
                date := pyStrip c2.text, sender := pyStrip c3.text,
                url := doc_url }]
    | _ => acc) []

/-- The parse portion of one `fetch_case_details` attempt: `none` when the
page has no tables (the attempt continues), otherwise the result dict built
from the overview table and the optional documents table. -/
def parse_case_page (w : DetailOracle) (case_id : List Char) (case_url : List Char)
    (page : CasePage) : Option CaseDetailResult :=
  match page.tables with
  | [] => none
  | overview :: restTables =>
    let details := overviewDetails overview
    let documents := match restTables with
      | docTable :: _ => extractDocuments docTable
      | [] => []
    some
      { id := (dictGet details (("Diarienummer").data)).getD [],
        case_id := case_id,
        diarium := (dictGet details (("Diarium").data)).getD [],
        date := collector_parse_date w
          (some ((dictGet details (("In/Upp-datum").data)).getD [])),
        title := (dictGet details (("Ă„renderubrik").data)).getD [],
        status := (dictGet details (("Status").data)).getD [],
        decision_date := collector_parse_date w
          (dictGet details (("Beslutsdatum").data)),
        sender := (dictGet details (("AvsĂ¤ndare/mottagare").data)).getD [],
        municipality := (dictGet details (("Kommun").data)).getD [],
        documents := documents,
        url := case_url }

/-- The per-attempt environment of `fetch_case_details`: either the
attempt raises, or the GET returns a status and (when read) a page. -/
inductive AttemptOutcome where
  | exn
  | response (status : Nat) (page : CasePage)

/-- What one attempt of the retry loop does with its environment:
return from the function, or fall through to the next attempt. -/
inductive AttemptStep where
  | finish (r : Option CaseDetailResult)
  | retry
deriving Repr, DecidableEq

/-- One attempt of `fetch_case_details`: a `404` returns `None`
immediately, any other non-`200` status continues, a page without tables
continues, a parsed result is returned only when its case number is
nonempty and contains the requested one, and an exception continues. -/
def fetch_attempt (w : DetailOracle) (case_number case_id : List Char)
    (out : AttemptOutcome) : AttemptStep :=
  match out with
  | AttemptOutcome.exn => AttemptStep.retry
  | AttemptOutcome.response status page =>
    if status == 404 then AttemptStep.finish none
    else if status != 200 then AttemptStep.retry
    else
      match parse_case_page w case_id (caseInfoUrl case_id) page with
      | none => AttemptStep.retry
      | some result =>
        if (!(result.id.isEmpty)) && containsSub case_number result.id then
          AttemptStep.finish (some result)
        else AttemptStep.retry

/-- The retry loop of `fetch_case_details` (`for attempt in
range(max_retries)` with `max_retries = 3`). Each iteration first sleeps
`base_delay * 2 ** attempt + jitter` with `base_delay = 2`; the returned
trace lists those delays in order. -/
def fetch_loop (w : DetailOracle) (case_number case_id : List Char)
    (envs : Nat → AttemptOutcome) (jitter : Nat → ℚ) :
    Nat → Nat → List ℚ → Option CaseDetailResult × List ℚ
  | 0, _, acc => (none, acc.reverse)
  | fuel + 1, i, acc =>
    let delay := 2 * 2 ^ i + jitter i
    match fetch_attempt w case_number case_id (envs i) with
    | AttemptStep.finish r => (r, (delay :: acc).reverse)
    | AttemptStep.retry =>
      fetch_loop w case_number case_id envs jitter fuel (i + 1) (delay :: acc)

/-- `LansstyrelsenCollector.fetch_case_details`: `None` without any attempt
for a falsy `case_id`, otherwise at most three attempts. The second
component is the trace of sleep delays, one per attempt made. -/
def fetch_case_details (w : DetailOracle) (case_number : List Char)
    (case_id : Option (List Char)) (envs : Nat → AttemptOutcome)
    (jitter : Nat → ℚ) : Option CaseDetailResult × List ℚ :=
  match case_id with
  | none => (none, [])
  | some cid =>
    if cid.isEmpty then (none, [])
    else fetch_loop w case_number cid envs jitter 3 0 []


/-! ## SearchResultParser and `fetch_data` -/

/-- The search-results page as `_parse_cases` reads it: the rows of the
table with id `SearchPlaceHolder_caseGridView`, when that table exists. -/
structure SearchHtml where
  caseGridView : Option (List (List DetailCell))
deriving Repr, DecidableEq

/-- `re.search(r'caseID=(\d+)', s)`: the digit run after the first
occurrence of `caseID=` that is followed by at least one digit. -/
def caseIDSearch : List Char → Option (List Char)
  | [] => none
  | c :: t =>
    if List.isPrefixOf (("caseID=").data) (c :: t) then
      let ds := ((c :: t).drop (("caseID=").data).length).takeWhile isDigitChar
      if ds.isEmpty then caseIDSearch t else some ds
    else caseIDSearch t

/-- One parsed search-result row (the dict built by `_parse_cases`; rows
lacking a link, a valid `%Y-%m-%d` date, a case id or a title never become
records, so `date` is always present). -/
structure RawCase where
  id : List Char
  case_id : List Char
  title : List Char
  date : PyDateTime
  location : List Char
  municipality : List Char
  status : List Char
  url : Option (List Char)
  lan : List Char
  sender : List Char
deriving Repr, DecidableEq

/-- `LansstyrelsenCollector._parse_cases`: skip the header row; skip rows
with fewer than 8 cells, without a link in the first cell, with an empty,
numeric or unparseable `%Y-%m-%d` date, or with an empty case id or
title; the numeric portal id is regex-extracted from the row URL and falls
back to the display case number. -/
def parse_cases (html : SearchHtml) (lan : List Char) : List RawCase :=
  match html.caseGridView with
  | none => []
  | some rows =>
    (rows.drop 1).foldl (fun cases row =>
      match row with
      | c0 :: c1 :: c2 :: c3 :: c4 :: c5 :: c6 :: _c7 :: _ =>
        match c0.link with
        | none => cases
        | some case_link =>
          let case_number := pyStrip case_link.text
          let href := case_link.hrefOrEmpty
          let case_url := if href.isEmpty then none
            else some (lansBaseUrl ++ ("/Case/").data ++ href)
          let case_id := match case_url with
            | some u =>
              match caseIDSearch u with
              | some ds => ds
              | none => case_number
            | none => case_number
          let status := pyStrip c1.text
          let date_str := pyStrip c2.text
          let title := pyStrip c3.text
          let sender := pyStrip c4.text
          let city := pyStrip c5.text
          let municipality := pyStrip c6.text
          let dateOpt : Option PyDateTime :=
            if (!(date_str.isEmpty)) && !(pyIsDigitStr date_str) then
              strptimeDateOnly date_str
            else none
          match dateOpt with
          | none => cases
          | some date =>
            if case_id.isEmpty || title.isEmpty then cases
            else
              let rec1 : RawCase :=
                { id := case_id, case_id := case_number, title := title,
                  date := date, location := city,
                  municipality := if municipality.isEmpty then lan else municipality,
                  status := status, url := case_url, lan := lan, sender := sender }
              cases ++ [rec1]
      | _ => cases) []

/-- The serialized per-region search queries of the collector
(`self.lan_queries`), in source order. -/
def lan_queries : List (List Char × List Char) := [
  (("Blekinge").data, ("oJ/Yw8gzqEqkNIX1ShhaGWnWcYgyyBdrYHcfG3urKk8/9Zkiokzp0729kvmEyalIedPQBOMNpj63vV+7vy551JfDJvn3xy5BW70PT/+vPLD9uq4jbc+f/NeC1MhP1ZVvWD4FoxnBr5y5sHs3eHq3BdShWRzY+bNQZf9uy0EYRXvjWV6QWSLv2IWfYlZEpRgPzWAtKr01xkSF9Dec196mhA==").data),
  (("Dalarna").data, ("oJ/Yw8gzqEphSnIcwnpkaNnPA7kL1gRZ4QWHdOX8FhuAyrnC2x2a+OkcbZCs52SC3R3oiAIxQnHMw2sE1D8/a1ub05oRT59giuDlLUaoGEZC3B+Rovcz+AwllaLFRHaa7cURg9aanS3m4UVCSplh7QAfQ+mbp7wV13/W72P//kaBIhUvCHFyN9nkqBTI3OQpRf2Ct8DAi1ejgAeyncHoCQ==").data),
  (("Gotland").data, ("oJ/Yw8gzqEokeApJVYjRaXoa6k2YElv2emC/oUqyvgFuTr4dDwz3mfBS6ACteyVPmtF/4eeZTE5dKd8ZwzlsI6bTF0fPGHagJLHKWFmWrvkvCGdKm8Ee7x5XPGrwqWxllANj02PO7qZe2IlBrnsMDKAjaDzhzbZ2Ny6lSUxXf32Zlvgvg0/9990pLI6EibjLKXCAhugBI/idniJtuxGOCA==").data),
  (("GĂ¤vleborg").data, ("oJ/Yw8gzqEoPWnqU46hgSukMY6AnxKe5CnlaCg3fZqGGz6dFaKS4eFjafDHa7fD4wZ5571F/ScM5umV8tq+WUGlortEXpF2KBPEIjOhPDH1iyQBpfAC1c6r6+eDRe8DZRqmQa6U03tpKKeJOqtCev3hXnMqY21habRnjBEObNkSL+tjUu60p40fVjhAgvknxzqcJTnqygppmiuYbA/MNWLLiunULSxEp").data),
  (("Halland").data, ("oJ/Yw8gzqEp0tmHRAAOQK4TwleyAyggOigTHR+8zTcs7T6H8VNzrALRKTlDgyC/8JrzfsaP9lJ/5AkUmxJUtXzCEa0Q+o+JlU1ynIZ5Wl9PGzU+zoaZ/QswWlut5wCFHDR/dcCfMKp89/FRdcS4ZwqVQPTmmvZtOrm0EnegbYh1ULBofjven2/DHeCx6iXvu1odsTa22G1OaTIyE+J7a7Q==").data),
  (("JĂ¤mtland").data, ("oJ/Yw8gzqEruhPyZ6tGyAsh7jq1mAswTLZe5rMuQvSSXn8tE73zBUqA9QTyqiIcvV/3hPBmQIZKVmWFaKNeRRrF46EKA413PTHtvVXobWxbkJjCDGqZTkcUYY75s0cB+BIJIzzHF44mBmMLGY0wT89v0Vp9fu5nWCOSuVqVg84BOYiv1k5xkk/RbejwqeBFF7vXx4LL+Cv2fG7xWodvbkTTZUCZnF7jE").data),
  (("JĂ¶nkĂ¶ping").data, ("oJ/Yw8gzqEo1wANBSKzPj42X2YnLSUN/zPn0ViG28D1ByELJxtyX50hsRz2SuNdQ2g4jZEEHGtEyn8ZJkoH9KX3yact7hXlmPrbv3LTuWyEMQ0OwBT1IwNfpDks+F3oPWpYx/24fMN7pG+Tv6yz8cQwMVyKs+u2p7sT5sYcQ54jbBIhjqLfIf7UgckeZia+/AggowQZ1AvCuWDLpjns+xF/40Ky5qYeO").data),
  (("Kalmar").data, ("oJ/Yw8gzqErxu6usVA+Wbgz0jxB1z1+K6dFRA8jFjgwlxvjQk/XlaKTQmuAonx3bF3XGDPSQJfFL4fPINvTfj1AIN4Ne0a6MP2/Fz7sx6eacf8w+9ZwnV7CxKIoLUEILa6uehhVpz+QZSdjNc9iSMYmBGcJGaQTLvWHwDc6KQ5qJRUz8MfGIL6O8EUOOwGDTzjOv7znoisG9LWUbQe7SKg==").data),
  (("Kronoberg").data, ("oJ/Yw8gzqEprB4JJnbIaFEOYgRT/BiIsoFQBzLCuL+mg5YXe73qqHOHcSWAB+cWfABOsDQdgvQOYtNmyk6+ZGvOCTcwkLxBOjjTo+oOqnVRL2brbAKtj7kirkfw4n2qnGbYzamZeVB635r7wJPk32LSwQdMIG/xZhDkQ9vIW5ULPEB2t060UNEevApSr+S1kN/UklwX42UH+MlDWmzwxMw==").data),
  (("Norrbotten").data, ("oJ/Yw8gzqEoDojViDAag9VYhHZuZYf8FfC/ieZIzAIiR/0cDi+HzRjxMeHChamIg03ba5sFLUAd+V9pfElF/g0CdpB24FQGPDz7oSsCUnbH3btOYvA6ivzWwSEGpIq9/NjPcC3tb7+4X/jHs45mvhKLv1yRStGJMqE1E2Ft+eakgIaT+EVXzmsa9BFoL5CZPI2doBJnJTe4nlrEtJWufNQ==").data),
  (("SkĂĄne").data, ("oJ/Yw8gzqEoFid3M8oYE6flZFIYGTWPE8O0F7SS0+gy5SjRMjOhf90eJdINMymqX85ZAeW5laMUEBqV3YwWNbTUbcQ0plrcYLwHqR4R407mcJnBglnoKRtIeXkS2e/keLwRRrc3AdDBGwNXP9Np08ooGg2uUt7wk/btrZTsx6PJa7T9r8IbtK5Aqy+prVWH2cwHxkyClGeIiOSeSyDT+MA==").data),
  (("Stockholm").data, ("oJ/Yw8gzqEr9ngHRvOS/2ldmWTfvgjFlqUZFUYhPZnwUx8MwAuFzFTiAb1/7bMntiEZH+fFgiW5ALWxF1I5vxEiAYmdEdOahK/pYQOCJNpfkyPdhkzSmVM3bVjEX4C8r4yu97P3JRoF/T/hZDj30FP1N9QtHTaYHz9E+PJN/hCP2uicaAXbQuFDAY47PgQSvV3Eauy6DO+MjoDJHiICdtA==").data),
  (("SĂ¶dermanland").data, ("oJ/Yw8gzqEoCUywfMvdObIgZuCIP4ndzxv7yLaRyKm7/9b4Tlf7izbW3HWSgpM9J6uu7NC9ibT+AknSBj/V4WS/sPA6VUWqnuBukCeYRB5YnRt4t/z/z4+NzB/KON++A5JU4tjzcNyMGwZA6V0FxoMVs/8VHAr3ez0qIwj+LWTfoRHAJnONnlFfntVqA+yrky5N8ai/RXyYszqyW9841Ay5TWtBuJwnO").data),
  (("Uppsala").data, ("oJ/Yw8gzqEpUh60GRueUYQxVY2cg7Lez02wrlcXJfaj7GWqwRgRWd5iBM7LLnKOUGRtmB/99nTOTfMwnNH81PYFeAgwNpzvGQR+Rp3UwJWbnXWKHTTqw+6NvdzAhxES3A/g/VtBTYpZHvLnSwl3/g+Z8PyeThnx+xlzqjuxF+I9PHQh68P+Iv8vt8TivfrvF3K8yvl9bliq0FqA8yMhmQw==").data),
  (("VĂ¤rmland").data, ("oJ/Yw8gzqErwbiTTCxUh+1TQ2hSHSOXrDc2OfrAMN8rme4hlk2n7Tg2HoNmbUOk8b+nibqv3wruEYA3SSNc1dWiw/3v6SNDBmbPQkhGyWO1BlxSOVMXar95FddPuPlOwKFvimdLsZiq5iFmumW1VYBOKKPOLSJ71JGzGzgoy+Q+DhuBtA2JzECgKmdUuyZZOIpHkRl13q1U6g2HfZItSow764HGDCEYJ").data),
  (("VĂ¤sterbotten").data, ("oJ/Yw8gzqEoNb8WjlmUzHPTdaN6YGSpudkuvczkb93cor0JTZvWWFgcMrv+fnSoNHp/NoWsTK175ddLUsJOIU6UKpXeHy6EzUv5hmIRwEVrCwSPUmpbSbsbAurngE9p0ckF7+QOz3YKboMI6EB6wTAIsPWfnLMSJ6kggKhM8aITB15I1JNqjtAq2YmrXP1WNdfcATHfs34UUyx/rBAsnjfLcP6Ot5aIu").data),
  (("VĂ¤sternorrland").data, ("oJ/Yw8gzqEpIUyPCD9tP0JFcRoLD05ORL4cXcJEi01y3X79DvS4rdky+B5PEyHw08s6EG2XYAfuEe9S0A6Ngj5glRXgPxJ/oqPYmS1meDqH7ffFegA6uhReTpNVnj54GmA7s8o8jL0m/Y+c1+94zDw9yrLYF/ja6jr41YFTjf4JBZvhBEDAvcx1ubj1IlPIdU1XSdpkkpcPq/82/lDNKY7EKuFgfEaQzw70MfcRYmLM=").data),
  (("VĂ¤stmanland").data, ("oJ/Yw8gzqEos5u1jaIdNYYWJXzdf3x/YIlHcT2aAkMnGCrJ2sepoZduei4g3F6IHdi9Fy3cgn8glPPVKkHlXTANxGlJmt7IDzIrrbOL5+Gudl8TwHIlWsT+m2QanGb7CUIQmgFSzQmw+BVyxKgK1wj9Gl3yWCSh+c9cxQ+Y2uByNAjDG3GPayKSrBlTQ70C3w123qKIJA9ZxkCvKMus9LOARurTfJ/nc").data),
  (("VĂ¤stra GĂ¶taland").data, ("oJ/Yw8gzqEoIEGRc++9S1wFoay2PsOEZfbx/OK6SkZepujV8HZPIdOJBjGbRiTtugpDZlETtNb0nrrNBSmWJ1fO1tA9qVbqXiJtVtlEDuFwNvApN2nx8CO24H8A+In9qMKCB/i7eLrM8ZDKYhFf9UlRhLSK9N3o74+U4bF8ViP6BOc1hcxetFvvSRhgrh8mXMZBcrVs4WxNDPxuafW9YmcdGbjoK//Qy0uKf5N1KBEY=").data),
  (("Ă–rebro").data, ("oJ/Yw8gzqEriJndjWkYOAIWK/WY55u0KXgzA2XdGRhXpiDqA3r8kQyIEo+eTXxtHzbizl7L2VnH3i0j7IcRPLvcK2NLnk5ITnrn1FCQKLKfah3dv+FsUUZs3tjf3qSxnEYnZJWolKBdggTuCmy5SsidXOLUb7OpKt4rKkBoaCYypi1zW+xf4YsoA82NTlEYyo1SpSKad8fqyVrq/jYG/xw==").data),
  (("Ă–stergĂ¶tland").data, ("oJ/Yw8gzqEoK6i/vq38qNznuSDQ9QTCQFWKiBr/AsnRjzxzD7mN2z+Ov5mv4ExfKCgwJkQbTP6pk+P8O0MOOK6Zk80+br+dnPelTwq1d88/CEYXoWEt6bq9SMXyz8idr+zB5i86p2CqE48kfJrofqaThXNIC8Bw8j8MiMNa96cU6XrIA7h13ylgRKJ/s1VVsCVPrga7RJkB2+NTa+PWeWH/r1G84IhZ6Sd6mP9mlmYE=").data)
]

/-- `self.lan_queries.get(lan)`. -/
def lanQueriesGet (lan : List Char) : Option (List Char) :=
  (lan_queries.find? (fun kv => kv.1 == lan)).map (fun kv => kv.2)

/-- The search URL built by `fetch_data` from the serialized query. -/
def searchResultUrl (lan_query : List Char) : List Char :=
  ("https://diarium.lansstyrelsen.se/Case/CaseSearchResult.aspx?query=").data
    ++ lan_query

/-- The projection of a parsed row into the dict `fetch_data` returns
(`formatted_results.append(...)`). The parsed rows carry no
`decision_date` key, so `result.get('decision_date')` is `None`;
`last_updated_from_source` is `datetime.now()` rendered as
`%Y-%m-%d %H:%M:%S`. -/
structure FormattedCase where
  id : List Char
  case_id : List Char
  title : List Char
  date : Option (List Char)
  location : List Char
  municipality : List Char
  status : List Char
  url : Option (List Char)
  lan : List Char
  sender : List Char
  decision_date : Option (List Char)
  last_updated_from_source : List Char
  details_fetched : Bool
  details_fetch_attempts : Nat
deriving Repr, DecidableEq

/-- Formatting of one parsed row inside `fetch_data`. -/
def formatCase (now : PyDateTime) (lan : List Char) (r : RawCase) : FormattedCase :=
  { id := r.id, case_id := r.case_id, title := r.title,
    date := some (renderDateStr r.date.year r.date.month r.date.day),
    location := r.location, municipality := r.municipality, status := r.status,
    url := r.url, lan := lan, sender := r.sender,
    decision_date := none,
    last_updated_from_source :=
      renderDateTimeStr ' ' now.year now.month now.day now.hour now.minute now.second,
    details_fetched := false, details_fetch_attempts := 0 }

/-- The pagination dict of a `fetch_data` result. -/
structure PaginationRec where
  current_page : Nat
  total_pages : Nat
  total_items : Nat
  items_per_page : Nat
  has_next : Bool
  has_previous : Bool
deriving Repr, DecidableEq

/-- The result dict of `fetch_data`. -/
structure FetchDataResult where
  source : List Char
  pagination : PaginationRec
  projects : List FormattedCase
deriving Repr, DecidableEq

/-- What `fetch_data` returns: the Python function returns a bare empty
list for an unknown lan or a non-200 status, and a result dict
otherwise. -/
inductive FetchDataValue where
  | emptyList
  | result (r : FetchDataResult)
deriving Repr, DecidableEq

/-- `LansstyrelsenCollector.fetch_data`. `world` is the upstream portal
(`url ↦` status and parsed body, or a raised network error, which the
`except`/`raise` at the end of `fetch_data` propagates); `now` is
`datetime.now()`. The `from_date`, `to_date` and `page` parameters are
accepted exactly as in the source signature; the body never reads them.
The first component is the trace of GET request URLs issued. -/
def fetch_data (world : List Char → Except (List Char) (Nat × SearchHtml))
    (now : PyDateTime) (lan : List Char) (from_date to_date : Option (List Char))
    (page : Nat) : List (List Char) × Except (List Char) FetchDataValue :=
  match lanQueriesGet lan with
  | none => ([], Except.ok FetchDataValue.emptyList)
  | some lan_query =>
    let url := searchResultUrl lan_query
    match world url with
    | Except.error e => ([url], Except.error e)
    | Except.ok (status, html) =>
      if status != 200 then ([url], Except.ok FetchDataValue.emptyList)
      else
        let formatted := (parse_cases html lan).map (formatCase now lan)
        let pag : PaginationRec :=
          { current_page := 1, total_pages := 1, total_items := formatted.length,
            items_per_page := 50, has_next := false, has_previous := false }
        ([url], Except.ok (FetchDataValue.result
          { source := ("LĂ¤nsstyrelsen").data, pagination := pag,
            projects := formatted }))


/-! ## IngestionCoordinator: the per-partition loop of
`fetch_cases_background` (`app/routers/projects.py`) -/

/-- A stored `Case` row, restricted to the columns this loop reads or
writes (`description` is carried because the `fetch_all_cases`
content-diff reads it; the `case_data` dict has no `description` key, so
updates leave it unchanged). -/
structure StoredCase where
  id : List Char
  case_id : List Char
  title : List Char
  date : Option PyDateTime
  location : List Char
  municipality : List Char
  status : List Char
  url : Option (List Char)
  lan : List Char
  sender : List Char
  description : Option (List Char)
  decision_date : Option PyDateTime
  last_updated_from_source : Option PyDateTime
  details_fetched : Bool
  details_fetch_attempts : Nat
deriving Repr, DecidableEq

/-- A `FetchStatus` row. `last_page_fetched` has column default 0. -/
structure FetchStatusRec where
  lan : List Char
  last_page_fetched : Nat
  last_successful_fetch : Option PyDateTime
  error_count : Nat
  last_error : Option (List Char)
deriving Repr, DecidableEq

/-- The `case_data` dict of `fetch_cases_background` after its
`parse_date` conversions, as the row it induces: string date fields are
parsed (an unparseable or absent value yields `NULL`); `description` is
not a key of the dict and is `NULL` on insert. -/
def toCaseData (f : FormattedCase) : StoredCase :=
  { id := f.id, case_id := f.case_id, title := f.title,
    date := f.date.bind (fun s => parse_date (DateInput.str s)),
    location := f.location, municipality := f.municipality, status := f.status,
    url := f.url, lan := f.lan, sender := f.sender,
    description := none,
    decision_date := f.decision_date.bind (fun s => parse_date (DateInput.str s)),
    last_updated_from_source := parse_date (DateInput.str f.last_updated_from_source),
    details_fetched := f.details_fetched,
    details_fetch_attempts := f.details_fetch_attempts }

/-- `setattr(existing, key, value)` over the keys of `case_data`:
every modelled column except `description` is overwritten. -/
def applyCaseData (cd existing : StoredCase) : StoredCase :=
  { cd with description := existing.description }

/-- `db.query(Case).filter(Case.id == id).first()`. -/
def storeFind (db : List StoredCase) (i : List Char) : Option StoredCase :=
  db.find? (fun c => c.id == i)

/-- The session-and-progress state threaded through the loop. `db` is the
session-visible store content; `batch` is `len(current_batch)`; `adds`
counts `db.add` calls (store mutations); `pending_status` is the
`status` ORM object as mutated in the session; `persisted_status` is its
durable value; `commit_log` records the pending checkpoint at each
`db.commit()`. -/
structure CoordState where
  db : List StoredCase
  batch : Nat
  adds : Nat
  processed : Nat
  pending_status : Option FetchStatusRec
  persisted_status : Option FetchStatusRec
  commit_log : List (Option FetchStatusRec)
deriving Repr, DecidableEq

/-- `db.commit()`: the pending checkpoint becomes durable. -/
def dbCommit (st : CoordState) : CoordState :=
  { st with persisted_status := st.pending_status,
            commit_log := st.commit_log ++ [st.pending_status] }

/-- One iteration of the per-case loop (`for case_data in
result['projects']`) of `fetch_cases_background`: reconcile against the
store, batch-commit at 50. -/
def processCase (f : FormattedCase) (st : CoordState) : CoordState :=
  let cd := toCaseData f
  match storeFind st.db cd.id with
  | some existing =>
    let upd : Bool := match existing.last_updated_from_source with
      | none => true
      | some ex =>
        match cd.last_updated_from_source with
        | some inc => pyDTGt inc ex
        | none => false
    if upd then
      let st2 := { st with
        db := st.db.map (fun c => if c.id == cd.id then applyCaseData cd existing else c),
        adds := st.adds + 1 }
      let st3 := if 50 ≤ st2.batch then { (dbCommit st2) with batch := 0 } else st2
      { st3 with processed := st3.processed + 1 }
    else { st with processed := st.processed + 1 }
  | none =>
    let st2 :=
      { st with db := st.db ++ [cd], adds := st.adds + 1, batch := st.batch + 1 }
    let st3 := if 50 ≤ st2.batch then { (dbCommit st2) with batch := 0 } else st2
    { st3 with processed := st3.processed + 1 }

/-- The per-case loop over one fetched page. -/
def processPage (projects : List FormattedCase) (st : CoordState) : CoordState :=
  projects.foldl (fun s f => processCase f s) st

/-- The in-memory checkpoint update after a successfully processed page
(lines 340-351 of `app/routers/projects.py`): create the `FetchStatus` in
the session or mutate the loaded one — without committing. -/
def checkpointAfterPage (lan : List Char) (now : PyDateTime) (current_page : Nat)
    (st : CoordState) : CoordState :=
  let newStatus : FetchStatusRec := match st.pending_status with
    | none =>
      { lan := lan, last_page_fetched := current_page,
        last_successful_fetch := some now, error_count := 0, last_error := none }
    | some s =>
      { s with last_page_fetched := current_page,
               last_successful_fetch := some now }
  { st with pending_status := some newStatus }

/-- The `while True` page loop of `fetch_cases_background` for one
partition, with its surrounding `except` handler. `fetchPage` maps a page
argument to the requests it issues and its outcome (`collector.fetch_data`
or, in the parameterized reading, any per-page environment). An empty or
projects-less result breaks without committing; a successfully processed
page updates the pending checkpoint, and `db.commit()` runs only when
`has_next` is false; an exception updates the error fields and commits.
`fuel` bounds the unbounded loop; every claim supplies ample fuel. -/
def partitionFetchLoop
    (fetchPage : Nat → List (List Char) × Except (List Char) FetchDataValue)
    (lan : List Char) (now : PyDateTime) :
    Nat → Nat → CoordState → List (List Char) → CoordState × List (List Char)
  | 0, _, st, reqs => (st, reqs)
  | fuel + 1, current_page, st, reqs =>
    match fetchPage current_page with
    | (pr, Except.error e) =>
      let st2 := match st.pending_status with
        | none =>
          let fresh : FetchStatusRec :=
            { lan := lan, last_page_fetched := 0, last_successful_fetch := none,
              error_count := 1, last_error := some e }
          { st with pending_status := some fresh }
        | some s =>
          let upd : FetchStatusRec :=
            { s with error_count := s.error_count + 1, last_error := some e }
          { st with pending_status := some upd }
      (dbCommit st2, reqs ++ pr)
    | (pr, Except.ok FetchDataValue.emptyList) => (st, reqs ++ pr)
    | (pr, Except.ok (FetchDataValue.result r)) =>
      if r.projects.isEmpty then (st, reqs ++ pr)
      else
        let st3 := checkpointAfterPage lan now current_page (processPage r.projects st)
        if r.pagination.has_next then
          partitionFetchLoop fetchPage lan now fuel (current_page + 1) st3 (reqs ++ pr)
        else (dbCommit st3, reqs ++ pr)

/-- One partition's resumed run: `start_page = (status.last_page_fetched
+ 1) if status else 1`, then the page loop. -/
def run_partition
    (fetchPage : Nat → List (List Char) × Except (List Char) FetchDataValue)
    (lan : List Char) (now : PyDateTime) (status0 : Option FetchStatusRec)
    (db0 : List StoredCase) (fuel : Nat) : CoordState × List (List Char) :=
  let st0 : CoordState :=
    { db := db0, batch := 0, adds := 0, processed := 0,
      pending_status := status0, persisted_status := status0, commit_log := [] }
  let start_page := match status0 with
    | some s => s.last_page_fetched + 1
    | none => 1
  partitionFetchLoop fetchPage lan now fuel start_page st0 []

/-- The partition run wired to the real collector: the loop's per-page
fetch is `collector.fetch_data(lan, page=current_page)`. -/
def run_partition_real (world : List Char → Except (List Char) (Nat × SearchHtml))
    (now : PyDateTime) (lan : List Char) (status0 : Option FetchStatusRec)
    (db0 : List StoredCase) (fuel : Nat) : CoordState × List (List Char) :=
  run_partition (fun p => fetch_data world now lan none none p) lan now status0
    db0 fuel

/-! ## The `fetch_all_cases` reconciliation (`app/scripts/fetch_all_cases.py`) -/

/-- The `needs_update` decision of `fetch_all_cases`: a missing record, a
case date newer than the stored `last_updated_from_source` (or no stored
value), or, failing that, a content diff over status, decision date,
title and description. The incoming dict from `_parse_cases` has no
`decision_date` or `description` keys, so those incoming values are
`None`. -/
def fac_needs_update (case_date : Option PyDateTime) (incoming : RawCase)
    (existing : Option StoredCase) : Bool :=
  match existing with
  | none => true
  | some ex =>
    let dateUpd : Bool := match case_date with
      | some cdte =>
        match ex.last_updated_from_source with
        | none => true
        | some lus => pyDTGt cdte lus
      | none => false
    if dateUpd then true
    else
      !(incoming.status == ex.status)
      || !((none : Option PyDateTime) == ex.decision_date)
      || !(incoming.title == ex.title)
      || !((none : Option (List Char)) == ex.description)

/-- One iteration of the `fetch_all_cases` per-case loop, reduced to its
store-mutation count: a falsy id or unparseable date skips the record; a
record that does not need updating performs no mutation; one that does is
classified and saved (one `db.add`/batch append) only when the
classification oracle marks it Medla-suitable. `parse_date` on the
already-parsed `date` is the identity. -/
def fac_case_mutations (medla : Bool) (incoming : RawCase)
    (existing : Option StoredCase) : Nat :=
  if incoming.id.isEmpty then 0
  else
    match parse_date (DateInput.dt incoming.date) with
    | none => 0
    | some case_date =>
      if fac_needs_update (some case_date) incoming existing then
        if medla then 1 else 0
      else 0

/-! ## Detail-fetch attempt counters (`fetch_case_details_background`,
`fetch_bookmarked_details`) -/

/-- The detail-fetch columns of a `Case`. -/
structure CaseDetailCounters where
  details_fetched : Bool
  details_fetch_attempts : Nat
deriving Repr, DecidableEq

/-- The outcome of one `collector.fetch_case_details` call as its caller
sees it. -/
inductive DetailFetchOutcome where
  | success
  | noDetails
  | raised
deriving Repr, DecidableEq

/-- One run of `fetch_case_details_background`
(`app/routers/projects.py` lines 41-76) on a case: the attempt counter is
incremented and committed up front; on a missing-details result or an
exception the increment is undone when the committed counter is still
below 5. -/
def fcdb_step (out : DetailFetchOutcome) (s : CaseDetailCounters) : CaseDetailCounters :=
  let s1 := { s with details_fetch_attempts := s.details_fetch_attempts + 1 }
  match out with
  | DetailFetchOutcome.success => { s1 with details_fetched := true }
  | DetailFetchOutcome.noDetails =>
    if s1.details_fetch_attempts < 5 then
      { s1 with details_fetch_attempts := s1.details_fetch_attempts - 1 }
    else s1
  | DetailFetchOutcome.raised =>
    if s1.details_fetch_attempts < 5 then
      { s1 with details_fetch_attempts := s1.details_fetch_attempts - 1 }
    else s1

/-- One iteration of the `fetch_bookmarked_details` loop
(`app/scripts/fetch_bookmarked_details.py` lines 29-57) on a case: success
marks `details_fetched`; a missing-details result or an exception
increments the attempt counter, with no ceiling check anywhere. -/
def fbd_step (out : DetailFetchOutcome) (s : CaseDetailCounters) : CaseDetailCounters :=
  match out with
  | DetailFetchOutcome.success =>
    { s with details_fetched := true }
  | DetailFetchOutcome.noDetails =>
    { s with details_fetch_attempts := s.details_fetch_attempts + 1 }
  | DetailFetchOutcome.raised =>
    { s with details_fetch_attempts := s.details_fetch_attempts + 1 }

/-- A sequence of detail-fetch operations applied to one case. -/
def run_detail_ops
    (step : DetailFetchOutcome → CaseDetailCounters → CaseDetailCounters)
    (ops : List DetailFetchOutcome) (s : CaseDetailCounters) : CaseDetailCounters :=
  ops.foldl (fun st o => step o st) s

/-! ## ClassificationStage: `batch_categorize_with_progress`
(`app/services/categorization.py`) -/

/-- The outcome of `_categorize_case` for one record, as the batch loop
sees it: success, or failure with its message. `_categorize_case` catches
every exception — including quota-exhaustion errors from the external
collaborator, marked here by `quotaExceeded` — and converts it to an
ordinary failure triple. -/
inductive RecordOutcome where
  | ok (category : List Char)
  | failure (errMsg : List Char) (quotaExceeded : Bool)
deriving Repr, DecidableEq

/-- The status values the stage can assign. -/
inductive BatchStatus where
  | completed
  | completed_with_errors
  | failed
  | in_progress
  | quota_exceeded
deriving Repr, DecidableEq

/-- A progress snapshot (the fields this claim concerns). -/
structure BatchSnapshot where
  processed : Nat
  successful : Nat
  failed : Nat
  total_cases : Nat
  status : BatchStatus
  errors : List (List Char)
deriving Repr, DecidableEq

/-- The per-record bookkeeping of the batch loop. -/
def batch_step (r : RecordOutcome) (s : BatchSnapshot) : BatchSnapshot :=
  match r with
  | RecordOutcome.ok _ =>
    { s with successful := s.successful + 1, processed := s.processed + 1 }
  | RecordOutcome.failure msg _ =>
    { s with failed := s.failed + 1, errors := s.errors ++ [msg],
             processed := s.processed + 1 }

/-- The final snapshot yielded by `batch_categorize_with_progress`: an
empty batch completes immediately; otherwise every record is processed and
the final status is `failed` when all failed, `completed_with_errors` when
some failed, and `completed` otherwise. -/
def batch_categorize_final (outcomes : List RecordOutcome) : BatchSnapshot :=
  if outcomes.isEmpty then
    { processed := 0, successful := 0, failed := 0, total_cases := 0,
      status := BatchStatus.completed, errors := [] }
  else
    let init : BatchSnapshot :=
      { processed := 0, successful := 0, failed := 0,
        total_cases := outcomes.length, status := BatchStatus.in_progress,
        errors := [] }
    let final := outcomes.foldl (fun s r => batch_step r s) init
    { final with status :=
        if final.failed == final.total_cases then BatchStatus.failed
        else if 0 < final.failed then BatchStatus.completed_with_errors
        else BatchStatus.completed }

/-! ## The `fetch_all_cases` run loop (`app/scripts/fetch_all_cases.py`) -/

/-- The run-level summary `fetch_all_cases` returns. -/
structure FacSummary where
  total_cases_checked : Nat
  total_medla_cases : Nat
deriving Repr, DecidableEq

/-- The environment of one per-lan iteration: its processing either
completes with counter increments, or raises inside the inner fetch try
(lines 124-231), or raises elsewhere in the per-lan body (lines 110-237). -/
inductive LanRunOutcome where
  | ok (checked medla : Nat)
  | fetchError (e : List Char)
  | outerError (e : List Char)

/-- The body of one per-lan iteration before its handlers: environment
faults surface as `Except.error`. -/
def fac_lan_body (run : List Char → LanRunOutcome) (acc : FacSummary)
    (lan : List Char) : Except (List Char) FacSummary :=
  match run lan with
  | LanRunOutcome.ok c m =>
    Except.ok { total_cases_checked := acc.total_cases_checked + c,
                total_medla_cases := acc.total_medla_cases + m }
  | LanRunOutcome.fetchError e => Except.error e
  | LanRunOutcome.outerError e => Except.error e

/-- One per-lan iteration with its two `except Exception ... continue`
handlers applied: every fault is caught (the inner handler also records it
on the partition's `FetchStatus`, a store effect) and the loop
continues. -/
def fac_lan_step (run : List Char → LanRunOutcome) (acc : FacSummary)
    (lan : List Char) : FacSummary :=
  match fac_lan_body run acc lan with
  | Except.ok acc2 => acc2
  | Except.error _ => acc

/-- `fetch_all_cases`: the per-lan loop with every iteration guarded; the
outer `except`/`raise` would re-raise only a fault escaping the per-lan
handlers, and none can, so the run result is the summary. -/
def fetch_all_cases (lans : List (List Char)) (run : List Char → LanRunOutcome) :
    Except (List Char) FacSummary :=
  Except.ok (lans.foldl (fac_lan_step run)
    { total_cases_checked := 0, total_medla_cases := 0 })


/-! ## Concrete scenarios for the coordinator claims -/

/-- A fresh coordinator session state over a store. -/
def initCoordState (db : List StoredCase) : CoordState :=
  { db := db, batch := 0, adds := 0, processed := 0, pending_status := none,
    persisted_status := none, commit_log := [] }

/-- A well-formed search-result row. -/
def scenarioRow (caseNo dateStr : List Char) : List DetailCell :=
  [ { text := caseNo,
      link := some { text := caseNo,
                     href := some (("CaseInfo.aspx?caseID=123").data) } },
    { text := ("Handlaggning").data, link := none },
    { text := dateStr, link := none },
    { text := ("Vindkraftspark").data, link := none },
    { text := ("Bolag AB").data, link := none },
    { text := ("Lulea").data, link := none },
    { text := ("Lulea kommun").data, link := none },
    { text := [], link := none } ]

/-- A results page with one data row. -/
def c1Html : SearchHtml :=
  { caseGridView := some [[], scenarioRow (("831-2024").data) (("2024-01-05").data)] }

/-- A portal that always serves `c1Html` with status 200. -/
def c1World : List Char → Except (List Char) (Nat × SearchHtml) :=
  fun _ => Except.ok (200, c1Html)

/-- The run's `datetime.now()`. -/
def c1Now : PyDateTime := ⟨2024, 6, 1, 12, 0, 0, 0⟩

/-- A checkpoint interrupted after page 1 of a backfill
(`last_page_fetched = 1`, `last_successful_fetch = None`). -/
def c1Checkpoint : FetchStatusRec :=
  { lan := ("Stockholm").data, last_page_fetched := 1,
    last_successful_fetch := none, error_count := 0, last_error := none }

/-- A formatted project for the parameterized page-loop scenarios. -/
def c2Project (caseNo : List Char) : FormattedCase :=
  { id := caseNo, case_id := caseNo, title := ("Vindkraftspark").data,
    date := some (("2024-01-05").data), location := ("Lulea").data,
    municipality := ("Lulea kommun").data, status := ("Handlaggning").data,
    url := none, lan := ("Stockholm").data, sender := ("Bolag AB").data,
    decision_date := none,
    last_updated_from_source := renderDateTimeStr ' ' 2024 6 1 12 0 0,
    details_fetched := false, details_fetch_attempts := 0 }

/-- A one-project page result with the given pagination flag. -/
def c2Result (projects : List FormattedCase) (hasNext : Bool) : FetchDataResult :=
  { source := ("LĂ¤nsstyrelsen").data,
    pagination := { current_page := 1, total_pages := 2, total_items := 2,
                    items_per_page := 50, has_next := hasNext,
                    has_previous := false },
    projects := projects }

/-- A two-page partition environment: page 1 reports a further page,
page 2 is terminal; each page carries one fresh record. -/
def c2Fetch : Nat → List (List Char) × Except (List Char) FetchDataValue :=
  fun p =>
    if p == 1 then
      ([], Except.ok (FetchDataValue.result (c2Result [c2Project (("A-1").data)] true)))
    else
      ([], Except.ok (FetchDataValue.result (c2Result [c2Project (("A-2").data)] false)))

/-- An upstream record used for the reconciliation scenarios. -/
def c3Raw : RawCase :=
  { id := ("831-2024").data, case_id := ("831-2024").data,
    title := ("Vindkraftspark").data, date := ⟨2024, 1, 5, 0, 0, 0, 0⟩,
    location := ("Lulea").data, municipality := ("Lulea kommun").data,
    status := ("Handlaggning").data, url := none, lan := ("Stockholm").data,
    sender := ("Bolag AB").data }

/-- The fetch time of the second, identical ingestion. -/
def c3T2 : PyDateTime := ⟨2024, 6, 2, 12, 0, 0, 0⟩

/-- The outcome list of the C8 scenario: quota-exhaustion on record 2 of a
10-record batch (`_categorize_case` converts the `RateLimitError` into an
ordinary failure triple). -/
def c8Outcomes : List RecordOutcome :=
  [RecordOutcome.ok (("Wind Power").data),
   RecordOutcome.failure (("You exceeded your current quota").data) true]
  ++ List.replicate 8 (RecordOutcome.ok (("Wind Power").data))

/-- Count of failed records in a batch. -/
def countFailures (outcomes : List RecordOutcome) : Nat :=
  outcomes.countP (fun r => match r with
    | RecordOutcome.failure _ _ => true
    | _ => false)

/-- Count of successful records in a batch. -/
def countOk (outcomes : List RecordOutcome) : Nat :=
  outcomes.countP (fun r => match r with
    | RecordOutcome.ok _ => true
    | _ => false)

/-! # Theorems -/

/-! ## Helper lemmas about characters and rendering -/

theorem isDigitChar_digitChar (n : Nat) (h : n < 10) : isDigitChar (digitChar n) = true := by
  interval_cases n <;> decide

theorem digitVal_digitChar (n : Nat) (h : n < 10) : digitVal (digitChar n) = n := by
  interval_cases n <;> decide

theorem isPySpace_digitChar (n : Nat) : isPySpace (digitChar n) = false := by
  have h : (digitChar n).toNat = 48 + n ∨ (digitChar n).toNat = 0 := by
    unfold digitChar Char.ofNat
    by_cases h : (48 + n).isValidChar
    · left; rw [dif_pos h]; rfl
    · right; rw [dif_neg h]; rfl
  unfold isPySpace
  simp only [Bool.or_eq_false_iff, beq_eq_false_iff_ne]
  rcases h with h | h <;> rw [h] <;> omega

theorem isPySpace_false_of_digit (c : Char) (h : isDigitChar c = true) :
    isPySpace c = false := by
  unfold isDigitChar at h
  simp only [Bool.and_eq_true, decide_eq_true_eq] at h
  unfold isPySpace
  simp only [Bool.or_eq_false_iff, beq_eq_false_iff_ne]
  omega

theorem ne_hyphen_of_digit (c : Char) (h : isDigitChar c = true) : c ≠ '-' := by
  intro e
  rw [e] at h
  exact absurd h (by decide)

theorem contains_hyphen_false (s : List Char) (h : ∀ c ∈ s, isDigitChar c = true) :
    s.contains '-' = false := by
  have hm : ('-' : Char) ∉ s := fun hmem => ne_hyphen_of_digit '-' (h _ hmem) rfl
  simp [List.contains, hm]

theorem dropWhile_eq_self_head (p : Char → Bool) (s : List Char)
    (h : ∀ c ∈ s, p c = false) : List.dropWhile p s = s := by
  cases s with
  | nil => rfl
  | cons c cs => simp [List.dropWhile_cons, h c (by simp)]

theorem pyStrip_all_nonspace (s : List Char) (h : ∀ c ∈ s, isPySpace c = false) :
    pyStrip s = s := by
  unfold pyStrip dropTrailingWhile
  rw [dropWhile_eq_self_head _ _ h]
  rw [dropWhile_eq_self_head _ _ (fun c hc => h c (List.mem_reverse.mp hc))]
  exact List.reverse_reverse s

theorem daysInMonth_le_31 (y m : Nat) : daysInMonth y m ≤ 31 := by
  simp only [daysInMonth]
  split
  · split <;> omega
  · split <;> omega

theorem mkPyDateTime_eq_some (y m d hh mi ss us : Nat)
    (hv : validCalendarDate y m d = true) (h1 : hh ≤ 23) (h2 : mi ≤ 59)
    (h3 : ss ≤ 59) (h4 : us ≤ 999999) :
    mkPyDateTime y m d hh mi ss us = some ⟨y, m, d, hh, mi, ss, us⟩ := by
  unfold validCalendarDate at hv
  simp only [Bool.and_eq_true, decide_eq_true_eq] at hv
  unfold mkPyDateTime
  rw [if_pos]
  simp only [Bool.and_eq_true, decide_eq_true_eq]
  omega

theorem parse4Digits_render4 (y : Nat) (h : y ≤ 9999) (rest : List Char) :
    parse4Digits (render4 y ++ rest) = some (y, rest) := by
  have h1 : y / 1000 < 10 := by omega
  have h2 : y / 100 % 10 < 10 := by omega
  have h3 : y / 10 % 10 < 10 := by omega
  have h4 : y % 10 < 10 := by omega
  have hy : ((y / 1000 * 10 + y / 100 % 10) * 10 + y / 10 % 10) * 10 + y % 10 = y := by
    omega
  simp [render4, parse4Digits, isDigitChar_digitChar _ h1, isDigitChar_digitChar _ h2,
    isDigitChar_digitChar _ h3, isDigitChar_digitChar _ h4, digitVal_digitChar _ h1,
    digitVal_digitChar _ h2, digitVal_digitChar _ h3, digitVal_digitChar _ h4, hy]

theorem parseTwoOrOne_render2 (ok2 ok1 : Nat → Bool) (n : Nat) (h : n ≤ 99)
    (hok : ok2 n = true) (rest : List Char) :
    parseTwoOrOne ok2 ok1 (render2 n ++ rest) = some (n, rest) := by
  have h1 : n / 10 < 10 := by omega
  have h2 : n % 10 < 10 := by omega
  have hn : n / 10 * 10 + n % 10 = n := by omega
  simp [render2, parseTwoOrOne, isDigitChar_digitChar _ h1, isDigitChar_digitChar _ h2,
    digitVal_digitChar _ h1, digitVal_digitChar _ h2, hn, hok]

theorem takeWhile_eq_self_all (p : Char → Bool) (s : List Char)
    (h : ∀ c ∈ s, p c = true) : s.takeWhile p = s := by
  induction s with
  | nil => rfl
  | cons c cs ih =>
    rw [List.takeWhile_cons, if_pos (h c (by simp))]
    rw [ih (fun x hx => h x (by simp [hx]))]

theorem dropWhile_nil_all (p : Char → Bool) (s : List Char)
    (h : ∀ c ∈ s, p c = true) : s.dropWhile p = [] := by
  induction s with
  | nil => rfl
  | cons c cs ih =>
    rw [List.dropWhile_cons, if_pos (h c (by simp))]
    exact ih (fun x hx => h x (by simp [hx]))

theorem pyStrip_cons_concat (c : Char) (t : List Char) (e : Char)
    (hc : isPySpace c = false) (he : isPySpace e = false) :
    pyStrip (c :: (t ++ [e])) = c :: (t ++ [e]) := by
  unfold pyStrip dropTrailingWhile
  rw [List.dropWhile_cons, if_neg (by simp [hc])]
  have hrev : (c :: (t ++ [e])).reverse = e :: (t.reverse ++ [c]) := by
    simp
  rw [hrev, List.dropWhile_cons, if_neg (by simp [he])]
  rw [← hrev, List.reverse_reverse]

theorem parseYMDPrefix_render (y m d : Nat) (hy2 : y ≤ 9999) (hm1 : 1 ≤ m)
    (hm2 : m ≤ 12) (hd1 : 1 ≤ d) (hd2 : d ≤ 31) (rest : List Char) :
    parseYMDPrefix (renderDateStr y m d ++ rest) = some (y, m, d, rest) := by
  have e : renderDateStr y m d ++ rest
      = render4 y ++ ('-' :: (render2 m ++ ('-' :: (render2 d ++ rest)))) := by
    simp [renderDateStr]
  have hm' := parseTwoOrOne_render2 (fun v => 1 ≤ v && v ≤ 12) (fun v => 1 ≤ v && v ≤ 9)
    m (by omega) (by simp only [Bool.and_eq_true, decide_eq_true_eq]; omega)
  have hd' := parseTwoOrOne_render2 (fun v => 1 ≤ v && v ≤ 31) (fun v => 1 ≤ v && v ≤ 9)
    d (by omega) (by simp only [Bool.and_eq_true, decide_eq_true_eq]; omega)
  rw [e]
  simp [parseYMDPrefix, parse4Digits_render4 y hy2, expectChar, parseMonthField,
    parseDayField, hm', hd']

theorem parseHMSPrefix_render (hh mi ss : Nat) (h1 : hh ≤ 23) (h2 : mi ≤ 59)
    (h3 : ss ≤ 59) (rest : List Char) :
    parseHMSPrefix (render2 hh ++ ':' :: (render2 mi ++ ':' :: (render2 ss ++ rest)))
      = some (hh, mi, ss, rest) := by
  have hh' := parseTwoOrOne_render2 (fun v => v ≤ 23) (fun _ => true)
    hh (by omega) (by simp only [decide_eq_true_eq]; omega)
  have hm' := parseTwoOrOne_render2 (fun v => v ≤ 59) (fun _ => true)
    mi (by omega) (by simp only [decide_eq_true_eq]; omega)
  have hs' := parseTwoOrOne_render2 (fun v => v ≤ 61) (fun _ => true)
    ss (by omega) (by simp only [decide_eq_true_eq]; omega)
  simp [parseHMSPrefix, parseHourField, parseMinuteField, parseSecondField,
    expectChar, hh', hm', hs']

theorem parseFracField_render6 (us : Nat) (h : us ≤ 999999) :
    parseFracField (render6 us) = some (us, []) := by
  have hall : ∀ c ∈ render6 us, isDigitChar c = true := by
    intro c hc
    simp only [render6, List.mem_cons, List.not_mem_nil, or_false] at hc
    rcases hc with rfl | rfl | rfl | rfl | rfl | rfl <;>
      exact isDigitChar_digitChar _ (by omega)
  have ht := takeWhile_eq_self_all isDigitChar (render6 us) hall
  have hd := dropWhile_nil_all isDigitChar (render6 us) hall
  have h1 : us / 100000 < 10 := by omega
  have h2 : us / 10000 % 10 < 10 := by omega
  have h3 : us / 1000 % 10 < 10 := by omega
  have h4 : us / 100 % 10 < 10 := by omega
  have h5 : us / 10 % 10 < 10 := by omega
  have h6 : us % 10 < 10 := by omega
  unfold parseFracField
  rw [ht, hd]
  simp only [render6, List.length_cons, List.length_nil, List.foldl,
    digitVal_digitChar _ h1, digitVal_digitChar _ h2, digitVal_digitChar _ h3,
    digitVal_digitChar _ h4, digitVal_digitChar _ h5, digitVal_digitChar _ h6]
  norm_num
  omega

theorem strptimeDateOnly_render (y m d : Nat) (h : validCalendarDate y m d = true) :
    strptimeDateOnly (renderDateStr y m d) = some ⟨y, m, d, 0, 0, 0, 0⟩ := by
  have h0 := h
  simp only [validCalendarDate, Bool.and_eq_true, decide_eq_true_eq] at h0
  obtain ⟨⟨⟨⟨⟨hy1, hy2⟩, hm1⟩, hm2⟩, hd1⟩, hdm⟩ := h0
  have hd31 : d ≤ 31 := le_trans hdm (daysInMonth_le_31 y m)
  have hp := parseYMDPrefix_render y m d hy2 hm1 hm2 hd1 hd31 []
  rw [List.append_nil] at hp
  simp [strptimeDateOnly, hp, mkPyDateTime_eq_some y m d 0 0 0 0 h (by omega) (by omega)
    (by omega) (by omega)]

theorem tryFormats_render_date (y m d : Nat) (h : validCalendarDate y m d = true) :
    tryFormatsList (renderDateStr y m d) = some ⟨y, m, d, 0, 0, 0, 0⟩ := by
  simp [tryFormatsList, strptimeDateOnly_render y m d h]

theorem tryFormats_render_dtsp (y m d hh mi ss : Nat) (h : validCalendarDate y m d = true)
    (h1 : hh ≤ 23) (h2 : mi ≤ 59) (h3 : ss ≤ 59) :
    tryFormatsList (renderDateTimeStr ' ' y m d hh mi ss)
      = some ⟨y, m, d, hh, mi, ss, 0⟩ := by
  have h0 := h
  simp only [validCalendarDate, Bool.and_eq_true, decide_eq_true_eq] at h0
  obtain ⟨⟨⟨⟨⟨hy1, hy2⟩, hm1⟩, hm2⟩, hd1⟩, hdm⟩ := h0
  have hd31 : d ≤ 31 := le_trans hdm (daysInMonth_le_31 y m)
  have hp := parseYMDPrefix_render y m d hy2 hm1 hm2 hd1 hd31
    (' ' :: (render2 hh ++ ':' :: (render2 mi ++ ':' :: render2 ss)))
  have hq := parseHMSPrefix_render hh mi ss h1 h2 h3 []
  rw [List.append_nil] at hq
  have e : renderDateTimeStr ' ' y m d hh mi ss
      = renderDateStr y m d
        ++ (' ' :: (render2 hh ++ ':' :: (render2 mi ++ ':' :: render2 ss))) := by
    simp [renderDateTimeStr]
  rw [e]
  simp [tryFormatsList, strptimeDateOnly, strptimeDateTime, hp, hq, expectChar,
    mkPyDateTime_eq_some y m d hh mi ss 0 h h1 h2 h3 (by omega)]

theorem tryFormats_render_dtT (y m d hh mi ss : Nat) (h : validCalendarDate y m d = true)
    (h1 : hh ≤ 23) (h2 : mi ≤ 59) (h3 : ss ≤ 59) :
    tryFormatsList (renderDateTimeStr 'T' y m d hh mi ss)
      = some ⟨y, m, d, hh, mi, ss, 0⟩ := by
  have h0 := h
  simp only [validCalendarDate, Bool.and_eq_true, decide_eq_true_eq] at h0
  obtain ⟨⟨⟨⟨⟨hy1, hy2⟩, hm1⟩, hm2⟩, hd1⟩, hdm⟩ := h0
  have hd31 : d ≤ 31 := le_trans hdm (daysInMonth_le_31 y m)
  have hp := parseYMDPrefix_render y m d hy2 hm1 hm2 hd1 hd31
    ('T' :: (render2 hh ++ ':' :: (render2 mi ++ ':' :: render2 ss)))
  have hq := parseHMSPrefix_render hh mi ss h1 h2 h3 []
  rw [List.append_nil] at hq
  have hT : (('T' : Char) == ' ') = false := by decide
  have e : renderDateTimeStr 'T' y m d hh mi ss
      = renderDateStr y m d
        ++ ('T' :: (render2 hh ++ ':' :: (render2 mi ++ ':' :: render2 ss))) := by
    simp [renderDateTimeStr]
  rw [e]
  simp [tryFormatsList, strptimeDateOnly, strptimeDateTime, hp, hq, hT, expectChar,
    mkPyDateTime_eq_some y m d hh mi ss 0 h h1 h2 h3 (by omega)]

theorem tryFormats_render_dtfrsp (y m d hh mi ss us : Nat)
    (h : validCalendarDate y m d = true) (h1 : hh ≤ 23) (h2 : mi ≤ 59) (h3 : ss ≤ 59)
    (h4 : us ≤ 999999) :
    tryFormatsList (renderDateTimeFracStr ' ' y m d hh mi ss us)
      = some ⟨y, m, d, hh, mi, ss, us⟩ := by
  have h0 := h
  simp only [validCalendarDate, Bool.and_eq_true, decide_eq_true_eq] at h0
  obtain ⟨⟨⟨⟨⟨hy1, hy2⟩, hm1⟩, hm2⟩, hd1⟩, hdm⟩ := h0
  have hd31 : d ≤ 31 := le_trans hdm (daysInMonth_le_31 y m)
  have hp := parseYMDPrefix_render y m d hy2 hm1 hm2 hd1 hd31
    (' ' :: (render2 hh ++ ':' :: (render2 mi ++ ':' :: (render2 ss ++ '.' :: render6 us))))
  have hq := parseHMSPrefix_render hh mi ss h1 h2 h3 ('.' :: render6 us)
  have hf := parseFracField_render6 us h4
  have e : renderDateTimeFracStr ' ' y m d hh mi ss us
      = renderDateStr y m d
        ++ (' ' :: (render2 hh ++ ':' :: (render2 mi ++ ':'
            :: (render2 ss ++ '.' :: render6 us)))) := by
    simp [renderDateTimeFracStr, renderDateTimeStr]
  rw [e]
  simp [tryFormatsList, strptimeDateOnly, strptimeDateTime, hp, hq, hf, expectChar,
    mkPyDateTime_eq_some y m d hh mi ss us h h1 h2 h3 h4]

theorem tryFormats_render_dtfrT (y m d hh mi ss us : Nat)
    (h : validCalendarDate y m d = true) (h1 : hh ≤ 23) (h2 : mi ≤ 59) (h3 : ss ≤ 59)
    (h4 : us ≤ 999999) :
    tryFormatsList (renderDateTimeFracStr 'T' y m d hh mi ss us)
      = some ⟨y, m, d, hh, mi, ss, us⟩ := by
  have h0 := h
  simp only [validCalendarDate, Bool.and_eq_true, decide_eq_true_eq] at h0
  obtain ⟨⟨⟨⟨⟨hy1, hy2⟩, hm1⟩, hm2⟩, hd1⟩, hdm⟩ := h0
  have hd31 : d ≤ 31 := le_trans hdm (daysInMonth_le_31 y m)
  have hp := parseYMDPrefix_render y m d hy2 hm1 hm2 hd1 hd31
    ('T' :: (render2 hh ++ ':' :: (render2 mi ++ ':' :: (render2 ss ++ '.' :: render6 us))))
  have hq := parseHMSPrefix_render hh mi ss h1 h2 h3 ('.' :: render6 us)
  have hf := parseFracField_render6 us h4
  have hT : (('T' : Char) == ' ') = false := by decide
  have e : renderDateTimeFracStr 'T' y m d hh mi ss us
      = renderDateStr y m d
        ++ ('T' :: (render2 hh ++ ':' :: (render2 mi ++ ':'
            :: (render2 ss ++ '.' :: render6 us)))) := by
    simp [renderDateTimeFracStr, renderDateTimeStr]
  rw [e]
  simp [tryFormatsList, strptimeDateOnly, strptimeDateTime, hp, hq, hf, hT, expectChar,
    mkPyDateTime_eq_some y m d hh mi ss us h h1 h2 h3 h4]

theorem pyStrip_renderDateStr (y m d : Nat) :
    pyStrip (renderDateStr y m d) = renderDateStr y m d := by
  have e : renderDateStr y m d
      = digitChar (y / 1000) :: ([digitChar (y / 100 % 10), digitChar (y / 10 % 10),
          digitChar (y % 10), '-', digitChar (m / 10), digitChar (m % 10), '-',
          digitChar (d / 10)] ++ [digitChar (d % 10)]) := by
    simp [renderDateStr, render4, render2]
  rw [e, pyStrip_cons_concat _ _ _ (isPySpace_digitChar _) (isPySpace_digitChar _)]

theorem pyStrip_renderDateTimeStr (sep : Char) (y m d hh mi ss : Nat) :
    pyStrip (renderDateTimeStr sep y m d hh mi ss)
      = renderDateTimeStr sep y m d hh mi ss := by
  have e : renderDateTimeStr sep y m d hh mi ss
      = digitChar (y / 1000) :: ([digitChar (y / 100 % 10), digitChar (y / 10 % 10),
          digitChar (y % 10), '-', digitChar (m / 10), digitChar (m % 10), '-',
          digitChar (d / 10), digitChar (d % 10), sep, digitChar (hh / 10),
          digitChar (hh % 10), ':', digitChar (mi / 10), digitChar (mi % 10), ':',
          digitChar (ss / 10)] ++ [digitChar (ss % 10)]) := by
    simp [renderDateTimeStr, renderDateStr, render4, render2]
  rw [e, pyStrip_cons_concat _ _ _ (isPySpace_digitChar _) (isPySpace_digitChar _)]

theorem pyStrip_renderDateTimeFracStr (sep : Char) (y m d hh mi ss us : Nat) :
    pyStrip (renderDateTimeFracStr sep y m d hh mi ss us)
      = renderDateTimeFracStr sep y m d hh mi ss us := by
  have e : renderDateTimeFracStr sep y m d hh mi ss us
      = digitChar (y / 1000) :: ([digitChar (y / 100 % 10), digitChar (y / 10 % 10),
          digitChar (y % 10), '-', digitChar (m / 10), digitChar (m % 10), '-',
          digitChar (d / 10), digitChar (d % 10), sep, digitChar (hh / 10),
          digitChar (hh % 10), ':', digitChar (mi / 10), digitChar (mi % 10), ':',
          digitChar (ss / 10), digitChar (ss % 10), '.', digitChar (us / 100000),
          digitChar (us / 10000 % 10), digitChar (us / 1000 % 10),
          digitChar (us / 100 % 10), digitChar (us / 10 % 10)]
          ++ [digitChar (us % 10)]) := by
    simp [renderDateTimeFracStr, renderDateTimeStr, renderDateStr, render4, render2,
      render6]
  rw [e, pyStrip_cons_concat _ _ _ (isPySpace_digitChar _) (isPySpace_digitChar _)]

theorem parseYMDPrefix_digits (s : List Char) (h : ∀ c ∈ s, isDigitChar c = true) :
    parseYMDPrefix s = none := by
  rcases s with _ | ⟨c1, _ | ⟨c2, _ | ⟨c3, _ | ⟨c4, rest⟩⟩⟩⟩
  · rfl
  · rfl
  · rfl
  · rfl
  · by_cases hd : (isDigitChar c1 && isDigitChar c2 && isDigitChar c3 && isDigitChar c4)
      = true
    · rcases rest with _ | ⟨c5, rest2⟩
      · simp [parseYMDPrefix, parse4Digits, hd, expectChar]
      · have h5 : isDigitChar c5 = true := h c5 (by simp)
        have hne5 : (c5 == '-') = false := by
          rw [beq_eq_false_iff_ne]
          exact ne_hyphen_of_digit c5 h5
        simp [parseYMDPrefix, parse4Digits, hd, expectChar, hne5]
    · simp only [Bool.not_eq_true] at hd
      simp [parseYMDPrefix, parse4Digits, hd]

theorem tryFormats_digits (s : List Char) (h : ∀ c ∈ s, isDigitChar c = true) :
    tryFormatsList s = none := by
  have hp := parseYMDPrefix_digits s h
  simp [tryFormatsList, strptimeDateOnly, strptimeDateTime, hp]

theorem parse_date_str_of_tryFormats (s : List Char) (hne : s ≠ [])
    (hstrip : pyStrip s = s) (d : PyDateTime) (ht : tryFormatsList s = some d) :
    parse_date (DateInput.str s) = some d := by
  simp only [parse_date]
  rw [if_neg hne]
  simp only [hstrip, ht]

/-- Claim C5: `DateNormalizer.parse` (`parse_date`) is total and never raises
for every input (string, null, or already-parsed timestamp): an
already-parsed timestamp is returned unchanged; every valid date string in
the supported formats (`YYYY-MM-DD`, `YYYY-MM-DD HH:MM:SS[.ffffff]`,
`YYYY-MM-DDTHH:MM:SS[.ffffff]`) round-trips to the same calendar date; and
every non-date garbage string (pure digits, empty, `None`) yields null.
Totality is witnessed by `parse_date` being a total function into `Option`
with no error outcome; the conjuncts below establish the identity, the
round-trips (which return the exact calendar date and time parsed), and the
null results for `None`, the empty string and pure-digit strings. -/
theorem claim_C5 :
    (∀ d : PyDateTime, parse_date (DateInput.dt d) = some d)
    ∧ parse_date DateInput.pyNone = none
    ∧ parse_date (DateInput.str []) = none
    ∧ (∀ s : List Char, s ≠ [] → (∀ c ∈ s, isDigitChar c = true) →
        parse_date (DateInput.str s) = none)
    ∧ (∀ y m d : Nat, validCalendarDate y m d = true →
        parse_date (DateInput.str (renderDateStr y m d)) = some ⟨y, m, d, 0, 0, 0, 0⟩)
    ∧ (∀ y m d hh mi ss : Nat, validCalendarDate y m d = true → hh ≤ 23 → mi ≤ 59 →
        ss ≤ 59 → parse_date (DateInput.str (renderDateTimeStr ' ' y m d hh mi ss))
          = some ⟨y, m, d, hh, mi, ss, 0⟩)
    ∧ (∀ y m d hh mi ss : Nat, validCalendarDate y m d = true → hh ≤ 23 → mi ≤ 59 →
        ss ≤ 59 → parse_date (DateInput.str (renderDateTimeStr 'T' y m d hh mi ss))
          = some ⟨y, m, d, hh, mi, ss, 0⟩)
    ∧ (∀ y m d hh mi ss us : Nat, validCalendarDate y m d = true → hh ≤ 23 → mi ≤ 59 →
        ss ≤ 59 → us ≤ 999999 →
        parse_date (DateInput.str (renderDateTimeFracStr ' ' y m d hh mi ss us))
          = some ⟨y, m, d, hh, mi, ss, us⟩)
    ∧ (∀ y m d hh mi ss us : Nat, validCalendarDate y m d = true → hh ≤ 23 → mi ≤ 59 →
        ss ≤ 59 → us ≤ 999999 →
        parse_date (DateInput.str (renderDateTimeFracStr 'T' y m d hh mi ss us))
          = some ⟨y, m, d, hh, mi, ss, us⟩) := by
  refine ⟨fun d => rfl, rfl, rfl, ?_, ?_, ?_, ?_, ?_, ?_⟩
  · intro s hne h
    simp only [parse_date]
    rw [if_neg hne]
    have hstrip : pyStrip s = s :=
      pyStrip_all_nonspace s (fun c hc => isPySpace_false_of_digit c (h c hc))
    simp only [hstrip, tryFormats_digits s h, contains_hyphen_false s h,
      Bool.false_eq_true, if_false]
  · intro y m d h
    have hne : renderDateStr y m d ≠ [] := by simp [renderDateStr, render4]
    exact parse_date_str_of_tryFormats _ hne (pyStrip_renderDateStr y m d) _
      (tryFormats_render_date y m d h)
  · intro y m d hh mi ss h h1 h2 h3
    have hne : renderDateTimeStr ' ' y m d hh mi ss ≠ [] := by
      simp [renderDateTimeStr, renderDateStr, render4]
    exact parse_date_str_of_tryFormats _ hne (pyStrip_renderDateTimeStr _ y m d hh mi ss)
      _ (tryFormats_render_dtsp y m d hh mi ss h h1 h2 h3)
  · intro y m d hh mi ss h h1 h2 h3
    have hne : renderDateTimeStr 'T' y m d hh mi ss ≠ [] := by
      simp [renderDateTimeStr, renderDateStr, render4]
    exact parse_date_str_of_tryFormats _ hne (pyStrip_renderDateTimeStr _ y m d hh mi ss)
      _ (tryFormats_render_dtT y m d hh mi ss h h1 h2 h3)
  · intro y m d hh mi ss us h h1 h2 h3 h4
    have hne : renderDateTimeFracStr ' ' y m d hh mi ss us ≠ [] := by
      simp [renderDateTimeFracStr, renderDateTimeStr, renderDateStr, render4]
    exact parse_date_str_of_tryFormats _ hne
      (pyStrip_renderDateTimeFracStr _ y m d hh mi ss us) _
      (tryFormats_render_dtfrsp y m d hh mi ss us h h1 h2 h3 h4)
  · intro y m d hh mi ss us h h1 h2 h3 h4
    have hne : renderDateTimeFracStr 'T' y m d hh mi ss us ≠ [] := by
      simp [renderDateTimeFracStr, renderDateTimeStr, renderDateStr, render4]
    exact parse_date_str_of_tryFormats _ hne
      (pyStrip_renderDateTimeFracStr _ y m d hh mi ss us) _
      (tryFormats_render_dtfrT y m d hh mi ss us h h1 h2 h3 h4)

/-- Witness for C5 at concrete inputs: the leap-day date `2024-02-29`
round-trips, a full `T`-separated timestamp with microseconds round-trips,
and the pure-digit string `2024` yields `None`. -/
theorem claim_C5_witness :
    parse_date (DateInput.str (renderDateStr 2024 2 29)) = some ⟨2024, 2, 29, 0, 0, 0, 0⟩
    ∧ parse_date (DateInput.str (renderDateTimeFracStr 'T' 2023 12 31 23 59 58 123456))
        = some ⟨2023, 12, 31, 23, 59, 58, 123456⟩
    ∧ parse_date (DateInput.str [digitChar 2, digitChar 0, digitChar 2, digitChar 4])
        = none := by
  refine ⟨?_, ?_, ?_⟩
  · exact claim_C5.2.2.2.2.1 2024 2 29 (by decide)
  · exact claim_C5.2.2.2.2.2.2.2.2 2023 12 31 23 59 58 123456 (by decide) (by decide)
      (by decide) (by decide) (by decide)
  · exact claim_C5.2.2.2.1 [digitChar 2, digitChar 0, digitChar 2, digitChar 4]
      (by decide) (by decide)

/-- Counterexample for C6 as stated: a pagination footer whose next-page
link's href contains `javascript:__doPostBack` but carries no
apostrophe-quoted segments (a malformed or differently-encoded postback, so
it does not encode a well-formed script-postback invocation). The claim
demands a null return without raising; `_get_next_page_data` instead raises
`IndexError` at `href.split("'")[1]`. -/
theorem claim_C6_counterexample :
    get_next_page_data
      { tfoot := some (some (("1").data),
          [{ text := ("2").data,
             href := some (("javascript:__doPostBack(target,arg)").data) }]),
        viewstate := some { value := some (("vs").data) },
        viewstategenerator := some { value := some (("vsg").data) },
        eventvalidation := some { value := some (("ev").data) } }
      = Except.error ("IndexError") := by
  rfl

/-- Claim C6 (amended): `_get_next_page_data` returns null, without
raising, when the pagination footer is absent, when the footer has no
`<span>`, when it has no links, when no link matches `currentPage+1` or the
ellipsis-with-`Page$` pattern, when the candidate link's href lacks the
`javascript:__doPostBack` substring, and when any of the three hidden state
inputs cannot be located; but when the candidate href contains the
`javascript:__doPostBack` substring with fewer than two complete
apostrophe-quoted segments (fewer than four `split("'")` parts), the
function raises `IndexError` instead of returning null. -/
theorem claim_C6 :
    (∀ p : PostbackPage, p.tfoot = none → get_next_page_data p = Except.ok none)
    ∧ (∀ (p : PostbackPage) links, p.tfoot = some (none, links) →
        get_next_page_data p = Except.ok none)
    ∧ (∀ (p : PostbackPage) st cp, p.tfoot = some (some st, []) → pyInt st = some cp →
        get_next_page_data p = Except.ok none)
    ∧ (∀ (p : PostbackPage) st cp links, p.tfoot = some (some st, links) →
        pyInt st = some cp → links.find? (nextPageLinkPred cp) = none →
        get_next_page_data p = Except.ok none)
    ∧ (∀ (p : PostbackPage) st cp links link, p.tfoot = some (some st, links) →
        pyInt st = some cp → links.find? (nextPageLinkPred cp) = some link →
        containsSub doPostBackMarker link.hrefOrEmpty = false →
        get_next_page_data p = Except.ok none)
    ∧ (∀ (p : PostbackPage) st cp links link target argument,
        p.tfoot = some (some st, links) → pyInt st = some cp →
        links.find? (nextPageLinkPred cp) = some link →
        containsSub doPostBackMarker link.hrefOrEmpty = true →
        (splitOnChar apostChar link.hrefOrEmpty).get? 1 = some target →
        (splitOnChar apostChar link.hrefOrEmpty).get? 3 = some argument →
        (p.viewstate = none ∨ p.viewstategenerator = none ∨ p.eventvalidation = none) →
        get_next_page_data p = Except.ok none)
    ∧ (∀ (p : PostbackPage) st cp links link, p.tfoot = some (some st, links) →
        pyInt st = some cp → links.find? (nextPageLinkPred cp) = some link →
        containsSub doPostBackMarker link.hrefOrEmpty = true →
        (splitOnChar apostChar link.hrefOrEmpty).length < 4 →
        get_next_page_data p = Except.error ("IndexError")) := by
  refine ⟨?_, ?_, ?_, ?_, ?_, ?_, ?_⟩
  · intro p h1
    simp [get_next_page_data, h1]
  · intro p links h1
    simp [get_next_page_data, h1]
  · intro p st cp h1 h2
    simp [get_next_page_data, h1, h2]
  · intro p st cp links h1 h2 h3
    rcases links with _ | ⟨a, t⟩
    · simp [get_next_page_data, h1, h2]
    · simp [get_next_page_data, h1, h2, h3]
  · intro p st cp links link h1 h2 h3 h4
    rcases links with _ | ⟨a, t⟩
    · simp at h3
    · simp [get_next_page_data, h1, h2, h3, h4]
  · intro p st cp links link target argument h1 h2 h3 h4 hg1 hg3 hmiss
    rw [List.get?_eq_getElem?] at hg1 hg3
    rcases links with _ | ⟨a, t⟩
    · simp at h3
    · rcases hmiss with hm | hm | hm
      · simp [get_next_page_data, h1, h2, h3, h4, hg1, hg3, hm]
      · rcases hvs : p.viewstate with _ | vs
        · simp [get_next_page_data, h1, h2, h3, h4, hg1, hg3, hvs]
        · simp [get_next_page_data, h1, h2, h3, h4, hg1, hg3, hvs, hm]
      · rcases hvs : p.viewstate with _ | vs
        · simp [get_next_page_data, h1, h2, h3, h4, hg1, hg3, hvs]
        · rcases hvsg : p.viewstategenerator with _ | vsg
          · simp [get_next_page_data, h1, h2, h3, h4, hg1, hg3, hvs, hvsg]
          · simp [get_next_page_data, h1, h2, h3, h4, hg1, hg3, hvs, hvsg, hm]
  · intro p st cp links link h1 h2 h3 h4 h5
    rcases links with _ | ⟨a, t⟩
    · simp at h3
    · rcases hg1 : (splitOnChar apostChar link.hrefOrEmpty)[1]? with _ | target
      · simp [get_next_page_data, h1, h2, h3, h4, hg1]
      · have hg3 : (splitOnChar apostChar link.hrefOrEmpty)[3]? = none := by
          rw [← List.get?_eq_getElem?, List.get?_eq_none]
          omega
        simp [get_next_page_data, h1, h2, h3, h4, hg1, hg3]

/-- Witness for C6 at concrete pages: a page with no footer yields null,
and a page whose footer has a single non-matching link yields null. -/
theorem claim_C6_witness :
    get_next_page_data
      { tfoot := none, viewstate := none, viewstategenerator := none,
        eventvalidation := none } = Except.ok none
    ∧ get_next_page_data
      { tfoot := some (some (("1").data), [{ text := ("9").data, href := none }]),
        viewstate := none, viewstategenerator := none, eventvalidation := none }
        = Except.ok none := by
  constructor
  · exact claim_C6.1 _ rfl
  · exact claim_C6.2.2.2.1 _ (("1").data) 1 _ rfl (by decide) (by decide)

theorem fetch_attempt_success (w : DetailOracle) (cn cid : List Char)
    (out : AttemptOutcome) (r : CaseDetailResult)
    (h : fetch_attempt w cn cid out = AttemptStep.finish (some r)) :
    r.id.isEmpty = false ∧ containsSub cn r.id = true := by
  rcases out with _ | ⟨status, page⟩
  · exact absurd h (by simp [fetch_attempt])
  · simp only [fetch_attempt] at h
    by_cases h404 : (status == 404) = true
    · rw [if_pos h404] at h
      exact absurd h (by simp)
    · rw [if_neg h404] at h
      by_cases h200 : (status != 200) = true
      · rw [if_pos h200] at h
        exact absurd h (by simp)
      · rw [if_neg h200] at h
        rcases hp : parse_case_page w cid (caseInfoUrl cid) page with _ | result
        · simp only [hp] at h
          exact absurd h (by simp)
        · simp only [hp] at h
          by_cases hcond : ((!(result.id.isEmpty)) && containsSub cn result.id) = true
          · rw [if_pos hcond] at h
            have he : result = r := by
              injection h with h'
              exact Option.some.inj h'
            rw [← he]
            simp only [Bool.and_eq_true, Bool.not_eq_true'] at hcond
            exact hcond
          · rw [if_neg hcond] at h
            exact absurd h (by simp)

/-- Claim C7: `fetch_case_details` makes at most 3 attempts, each preceded
by an exponential-backoff delay with jitter (including before the first
attempt); a 404 response returns null immediately with no further retry;
any other non-200 response or parse failure is retried up to the ceiling
and then null is returned; and a response whose case number does not match
the requested case number counts as a failed attempt, never as a success.
The delay trace equals `2 * 2 ^ i + jitter i` for each attempt `i` made. -/
theorem claim_C7 :
    (∀ (w : DetailOracle) (cn cid : List Char) (envs : Nat → AttemptOutcome)
        (jitter : Nat → ℚ), cid.isEmpty = false →
      ∃ k, 1 ≤ k ∧ k ≤ 3 ∧
        (fetch_case_details w cn (some cid) envs jitter).2
          = (List.range k).map (fun i => 2 * 2 ^ i + jitter i))
    ∧ (∀ (w : DetailOracle) (cn cid : List Char) (envs : Nat → AttemptOutcome)
        (jitter : Nat → ℚ) (page : CasePage), cid.isEmpty = false →
        envs 0 = AttemptOutcome.response 404 page →
        fetch_case_details w cn (some cid) envs jitter = (none, [2 + jitter 0]))
    ∧ (∀ (w : DetailOracle) (cn cid : List Char) (envs : Nat → AttemptOutcome)
        (jitter : Nat → ℚ), cid.isEmpty = false →
        (∀ i, i < 3 → fetch_attempt w cn cid (envs i) = AttemptStep.retry) →
        (fetch_case_details w cn (some cid) envs jitter).1 = none)
    ∧ (∀ (w : DetailOracle) (cn cid : List Char) (status : Nat) (page : CasePage),
        (status == 404) = false → (status == 200) = false →
        fetch_attempt w cn cid (AttemptOutcome.response status page)
          = AttemptStep.retry)
    ∧ (∀ (w : DetailOracle) (cn cid : List Char) (page : CasePage)
        (result : CaseDetailResult),
        parse_case_page w cid (caseInfoUrl cid) page = some result →
        ((!(result.id.isEmpty)) && containsSub cn result.id) = false →
        fetch_attempt w cn cid (AttemptOutcome.response 200 page)
          = AttemptStep.retry)
    ∧ (∀ (w : DetailOracle) (cn cid : List Char) (envs : Nat → AttemptOutcome)
        (jitter : Nat → ℚ) (r : CaseDetailResult),
        (fetch_case_details w cn (some cid) envs jitter).1 = some r →
        r.id.isEmpty = false ∧ containsSub cn r.id = true) := by
  refine ⟨?_, ?_, ?_, ?_, ?_, ?_⟩
  · intro w cn cid envs jitter hcid
    simp only [fetch_case_details, hcid, Bool.false_eq_true, if_false]
    rcases h0 : fetch_attempt w cn cid (envs 0) with r0 | _
    · exact ⟨1, by omega, by omega, by simp [fetch_loop, h0, List.range_succ]⟩
    · rcases h1 : fetch_attempt w cn cid (envs 1) with r1 | _
      · exact ⟨2, by omega, by omega, by simp [fetch_loop, h0, h1, List.range_succ]⟩
      · rcases h2 : fetch_attempt w cn cid (envs 2) with r2 | _
        · exact ⟨3, by omega, by omega, by simp [fetch_loop, h0, h1, h2, List.range_succ]⟩
        · exact ⟨3, by omega, by omega, by simp [fetch_loop, h0, h1, h2, List.range_succ]⟩
  · intro w cn cid envs jitter page hcid h404
    have ha : fetch_attempt w cn cid (envs 0) = AttemptStep.finish none := by
      rw [h404]
      simp [fetch_attempt]
    simp only [fetch_case_details, hcid, Bool.false_eq_true, if_false]
    simp [fetch_loop, ha]
  · intro w cn cid envs jitter hcid hall
    simp only [fetch_case_details, hcid, Bool.false_eq_true, if_false]
    simp [fetch_loop, hall 0 (by omega), hall 1 (by omega), hall 2 (by omega)]
  · intro w cn cid status page h1 h2
    simp [fetch_attempt, h1, h2, bne]
  · intro w cn cid page result hp hc
    simp [fetch_attempt, hp, hc]
  · intro w cn cid envs jitter r h
    by_cases hcid : cid.isEmpty = true
    · simp [fetch_case_details, hcid] at h
    · rw [Bool.not_eq_true] at hcid
      simp only [fetch_case_details, hcid, Bool.false_eq_true, if_false] at h
      rcases h0 : fetch_attempt w cn cid (envs 0) with r0 | _
      · simp only [fetch_loop, h0] at h
        exact fetch_attempt_success w cn cid (envs 0) r (h ▸ h0)
      · rcases h1 : fetch_attempt w cn cid (envs 1) with r1 | _
        · simp only [fetch_loop, h0, h1] at h
          exact fetch_attempt_success w cn cid (envs 1) r (h ▸ h1)
        · rcases h2 : fetch_attempt w cn cid (envs 2) with r2 | _
          · simp only [fetch_loop, h0, h1, h2] at h
            exact fetch_attempt_success w cn cid (envs 2) r (h ▸ h2)
          · simp only [fetch_loop, h0, h1, h2] at h
            simp at h

/-- Witness for C7: a 404 on the first attempt returns null after exactly
one attempt with the single backoff delay. -/
theorem claim_C7_witness :
    fetch_case_details { dayfirstParse := fun _ => none } (("1").data)
      (some (("7").data)) (fun _ => AttemptOutcome.response 404 { tables := [] })
      (fun _ => (0 : ℚ)) = (none, [2 + (0 : ℚ)]) :=
  claim_C7.2.1 _ _ _ _ _ _ (by decide) rfl

/-- Claim C10: for every partition name and all values of the `page`,
`from_date` and `to_date` arguments, `fetch_data` issues the same
first-page GET request (the search URL built only from the partition's
serialized query) and returns the parsed first results page with
pagination fixed at `current_page = 1`, `total_pages = 1` and
`has_next = false` — the `page`, `from_date` and `to_date` arguments never
change the request sent or the result returned. -/
theorem claim_C10 :
    (∀ world now lan fd td fd2 td2 p p2,
      fetch_data world now lan fd td p = fetch_data world now lan fd2 td2 p2)
    ∧ (∀ world now lan q fd td p, lanQueriesGet lan = some q →
        (fetch_data world now lan fd td p).1 = [searchResultUrl q])
    ∧ (∀ world now lan q fd td p html, lanQueriesGet lan = some q →
        world (searchResultUrl q) = Except.ok (200, html) →
        (fetch_data world now lan fd td p).2
          = Except.ok (FetchDataValue.result
              { source := ("LĂ¤nsstyrelsen").data,
                pagination :=
                  { current_page := 1, total_pages := 1,
                    total_items := ((parse_cases html lan).map (formatCase now lan)).length,
                    items_per_page := 50, has_next := false, has_previous := false },
                projects := (parse_cases html lan).map (formatCase now lan) })) := by
  refine ⟨?_, ?_, ?_⟩
  · intro world now lan fd td fd2 td2 p p2
    rfl
  · intro world now lan q fd td p hq
    rcases hw : world (searchResultUrl q) with e | ⟨status, html⟩
    · simp [fetch_data, hq, hw]
    · by_cases hs : (status != 200) = true
      · simp [fetch_data, hq, hw, hs]
      · simp only [Bool.not_eq_true] at hs
        simp [fetch_data, hq, hw, hs]
  · intro world now lan q fd td p html hq hw
    simp [fetch_data, hq, hw]

/-- Witness for C10: page, from-date and to-date arguments are
interchangeable for the Stockholm partition, the single GET issued is the
Stockholm search URL, and an empty 200-response page yields the fixed
single-page pagination with no results. -/
theorem claim_C10_witness :
    fetch_data (fun _ => Except.ok (200, { caseGridView := none }))
        ⟨2024, 1, 2, 3, 4, 5, 0⟩ (("Stockholm").data) none none 1
      = fetch_data (fun _ => Except.ok (200, { caseGridView := none }))
        ⟨2024, 1, 2, 3, 4, 5, 0⟩ (("Stockholm").data)
        (some (("2024-01-01").data)) (some (("2024-02-01").data)) 7
    ∧ (fetch_data (fun _ => Except.ok (200, { caseGridView := none }))
        ⟨2024, 1, 2, 3, 4, 5, 0⟩ (("Stockholm").data) none none 1).2
      = Except.ok (FetchDataValue.result
          { source := ("LĂ¤nsstyrelsen").data,
            pagination :=
              { current_page := 1, total_pages := 1, total_items := 0,
                items_per_page := 50, has_next := false, has_previous := false },
            projects := [] }) := by
  constructor
  · exact claim_C10.1 _ _ _ none none (some (("2024-01-01").data))
      (some (("2024-02-01").data)) 1 7
  · exact claim_C10.2.2 _ _ _ _ none none 1 { caseGridView := none } rfl rfl

/-- Claim C1 (the coordinator does not actually resume at page `N+1`):
with a stored checkpoint at `last_page_fetched = 1` whose pass never
completed, the resumed run computes `start_page = 2` and passes
`page = 2` to `collector.fetch_data` — but the only upstream request it
issues is exactly the request a fresh page-1 fetch issues (the page
argument never reaches the URL), and because the returned pagination is
fixed at `has_next = false` the loop then stops, with the checkpoint now
falsely recording page 2 as fetched. So the run re-fetches page 1 and
never fetches page 2. -/
theorem claim_C1 :
    (run_partition_real c1World c1Now (("Stockholm").data) (some c1Checkpoint) [] 10).2
      = [searchResultUrl ((lanQueriesGet (("Stockholm").data)).getD [])]
    ∧ (run_partition_real c1World c1Now (("Stockholm").data) none [] 10).2
      = [searchResultUrl ((lanQueriesGet (("Stockholm").data)).getD [])]
    ∧ ((run_partition_real c1World c1Now (("Stockholm").data) (some c1Checkpoint)
        [] 10).1).pending_status
      = some { c1Checkpoint with last_page_fetched := 2,
                                 last_successful_fetch := some c1Now } := by
  refine ⟨by decide, by decide, by decide⟩

theorem processCase_no_commit (f : FormattedCase) (st : CoordState)
    (h : st.batch ≤ 48) :
    (processCase f st).commit_log = st.commit_log
    ∧ (processCase f st).batch ≤ st.batch + 1 := by
  have hb1 : ¬ (50 ≤ st.batch) := by omega
  have hb2 : ¬ (49 ≤ st.batch) := by omega
  have hb3 : ¬ (50 ≤ st.batch + 1) := by omega
  rcases hf : storeFind st.db (toCaseData f).id with _ | existing
  · refine ⟨?_, ?_⟩ <;> simp [processCase, hf, hb1, hb2, hb3]
  · simp only [processCase, hf]
    split
    · refine ⟨?_, ?_⟩ <;> simp [hb1, hb2, hb3]
    · refine ⟨?_, ?_⟩ <;> simp

theorem processPage_no_commit (projects : List FormattedCase) : ∀ st : CoordState,
    st.batch + projects.length ≤ 49 →
    (processPage projects st).commit_log = st.commit_log
    ∧ (processPage projects st).batch ≤ st.batch + projects.length := by
  induction projects with
  | nil =>
    intro st h
    exact ⟨rfl, by simp [processPage]⟩
  | cons f fs ih =>
    intro st h
    simp only [List.length_cons] at h
    have hc := processCase_no_commit f st (by omega)
    have hi := ih (processCase f st) (by have := hc.2; omega)
    have he : processPage (f :: fs) st = processPage fs (processCase f st) := rfl
    rw [he]
    refine ⟨by rw [hi.1, hc.1], ?_⟩
    have h1 := hi.2
    have h2 := hc.2
    simp only [List.length_cons]
    omega

/-- Counterexample for C2 as stated: a partition whose environment serves
two pages (page 1 reporting `has_next = true`, page 2 terminal), each with
one fresh record and batches far below 50. Both pages are successfully
processed (`processed = 2`), yet the commit log contains exactly one
checkpoint persist — at the end of the partition, recording page 2 — and
no persist after page 1, contradicting "after every successfully processed
page the checkpoint is durably persisted ... never only at the end". -/
theorem claim_C2_counterexample :
    ((run_partition c2Fetch (("Stockholm").data) c1Now none [] 10).1).commit_log
      = [some { lan := ("Stockholm").data, last_page_fetched := 2,
                last_successful_fetch := some c1Now, error_count := 0,
                last_error := none }]
    ∧ ((run_partition c2Fetch (("Stockholm").data) c1Now none [] 10).1).processed
      = 2 := by
  refine ⟨by decide, by decide⟩

/-- Claim C2 (amended): after every successfully processed page the
checkpoint is only updated in the session, and it is durably persisted
only when the page loop reaches a page with `has_next = false` (then
recording that final page) or on a partition error; a batch flush can
incidentally commit, but never fires while fewer than 50 cases have been
batched, so in an ordinary multi-page pass a crash mid-partition loses
every page of the current pass, not at most one. -/
theorem claim_C2 :
    (∀ fetchPage lan now fuel cp (st : CoordState) reqs pr r,
      fetchPage cp = (pr, Except.ok (FetchDataValue.result r)) →
      r.projects.isEmpty = false → r.pagination.has_next = true →
      partitionFetchLoop fetchPage lan now (fuel + 1) cp st reqs
        = partitionFetchLoop fetchPage lan now fuel (cp + 1)
            (checkpointAfterPage lan now cp (processPage r.projects st)) (reqs ++ pr))
    ∧ (∀ lan now cp (st : CoordState),
        (checkpointAfterPage lan now cp st).commit_log = st.commit_log
        ∧ ∃ s, (checkpointAfterPage lan now cp st).pending_status = some s
            ∧ s.last_page_fetched = cp)
    ∧ (∀ projects (st : CoordState), st.batch + projects.length ≤ 49 →
        (processPage projects st).commit_log = st.commit_log)
    ∧ (∀ fetchPage lan now fuel cp (st : CoordState) reqs pr r,
        fetchPage cp = (pr, Except.ok (FetchDataValue.result r)) →
        r.projects.isEmpty = false → r.pagination.has_next = false →
        partitionFetchLoop fetchPage lan now (fuel + 1) cp st reqs
          = (dbCommit (checkpointAfterPage lan now cp (processPage r.projects st)),
             reqs ++ pr)) := by
  refine ⟨?_, ?_, ?_, ?_⟩
  · intro fetchPage lan now fuel cp st reqs pr r h1 h2 h3
    simp [partitionFetchLoop, h1, h2, h3]
  · intro lan now cp st
    rcases hps : st.pending_status with _ | s
    · exact ⟨rfl,
        { lan := lan, last_page_fetched := cp, last_successful_fetch := some now,
          error_count := 0, last_error := none },
        by simp [checkpointAfterPage, hps], rfl⟩
    · exact ⟨rfl,
        { s with last_page_fetched := cp, last_successful_fetch := some now },
        by simp [checkpointAfterPage, hps], rfl⟩
  · intro projects st h
    exact (processPage_no_commit projects st h).1
  · intro fetchPage lan now fuel cp st reqs pr r h1 h2 h3
    simp [partitionFetchLoop, h1, h2, h3]

/-- Witness for C2 at a concrete terminal page: the loop commits exactly
the post-page checkpoint at partition end. -/
theorem claim_C2_witness :
    partitionFetchLoop c2Fetch (("Stockholm").data) c1Now (0 + 1) 2
        (initCoordState []) []
      = (dbCommit (checkpointAfterPage (("Stockholm").data) c1Now 2
          (processPage (c2Result [c2Project (("A-2").data)] false).projects
            (initCoordState []))), [] ++ []) :=
  claim_C2.2.2.2 c2Fetch (("Stockholm").data) c1Now 0 2 (initCoordState []) [] []
    (c2Result [c2Project (("A-2").data)] false) rfl rfl rfl

/-- Counterexample for C3 as stated: ingesting the same unchanged upstream
record twice through the `fetch_cases_background` reconciliation. The
collector stamps `last_updated_from_source = datetime.now()` at each
fetch, so the second ingestion (at `c3T2`, one day after `c1Now`) sees an
"advanced" timestamp for an unchanged record and performs one store
mutation (`adds = 1`), not zero. -/
theorem claim_C3_counterexample :
    (processCase (formatCase c1Now (("Stockholm").data) c3Raw)
      (initCoordState [])).adds = 1
    ∧ (processCase (formatCase c3T2 (("Stockholm").data) c3Raw)
        (initCoordState
          (processCase (formatCase c1Now (("Stockholm").data) c3Raw)
            (initCoordState [])).db)).adds = 1 := by
  refine ⟨by decide, by decide⟩

/-- Claim C3 (amended): the `fetch_all_cases` reconciliation is idempotent
— an unchanged record (same status, title, and no newer date, with the
stored record carrying no decision date or description, since the incoming
dict never has those keys) causes zero mutations, and a new Medla-suitable
record exactly one — while the `fetch_cases_background` reconciliation
updates whenever the incoming `last_updated_from_source` (the fetch
timestamp) exceeds the stored one: then exactly one upsert is performed,
writing the incoming field values in place; a record without an advanced
timestamp causes zero mutation calls. -/
theorem claim_C3 :
    (∀ (medla : Bool) (incoming : RawCase) (ex : StoredCase) (lus : PyDateTime),
      ex.last_updated_from_source = some lus →
      pyDTGt incoming.date lus = false →
      incoming.status = ex.status → ex.decision_date = none →
      incoming.title = ex.title → ex.description = none →
      fac_case_mutations medla incoming (some ex) = 0)
    ∧ (∀ incoming : RawCase, incoming.id.isEmpty = false →
        fac_case_mutations true incoming none = 1)
    ∧ (∀ (f : FormattedCase) (st : CoordState) (existing : StoredCase),
        storeFind st.db (toCaseData f).id = some existing →
        (existing.last_updated_from_source = none
          ∨ ∃ inc ex, (toCaseData f).last_updated_from_source = some inc
              ∧ existing.last_updated_from_source = some ex ∧ pyDTGt inc ex = true) →
        (processCase f st).adds = st.adds + 1
        ∧ (processCase f st).db = st.db.map (fun c =>
            if c.id == (toCaseData f).id then applyCaseData (toCaseData f) existing
            else c))
    ∧ (∀ (f : FormattedCase) (st : CoordState) (existing : StoredCase)
        (inc ex : PyDateTime),
        storeFind st.db (toCaseData f).id = some existing →
        (toCaseData f).last_updated_from_source = some inc →
        existing.last_updated_from_source = some ex → pyDTGt inc ex = false →
        processCase f st = { st with processed := st.processed + 1 }) := by
  refine ⟨?_, ?_, ?_, ?_⟩
  · intro medla incoming ex lus hlus hgt hst hdd hti hde
    by_cases hid : incoming.id.isEmpty = true
    · simp [fac_case_mutations, hid]
    · simp only [Bool.not_eq_true] at hid
      have hnu : fac_needs_update (some incoming.date) incoming (some ex) = false := by
        simp [fac_needs_update, hlus, hgt, hst, hdd, hti, hde]
      simp [fac_case_mutations, hid, parse_date, hnu]
  · intro incoming hid
    simp [fac_case_mutations, hid, parse_date, fac_needs_update]
  · intro f st existing hf hadv
    rcases hadv with hnone | ⟨inc, ex, hinc, hex, hgt⟩
    · constructor
      · simp only [processCase, hf, hnone]
        split
        · split <;> simp [dbCommit]
        · exact absurd trivial (by assumption)
      · simp only [processCase, hf, hnone]
        split
        · split <;> simp [dbCommit]
        · exact absurd trivial (by assumption)
    · constructor
      · simp only [processCase, hf, hex, hinc, hgt]
        split
        · split <;> simp [dbCommit]
        · exact absurd trivial (by assumption)
      · simp only [processCase, hf, hex, hinc, hgt]
        split
        · split <;> simp [dbCommit]
        · exact absurd trivial (by assumption)
  · intro f st existing inc ex hf hinc hex hgt
    simp [processCase, hf, hex, hinc, hgt]

/-- Witness for C3: a fresh Medla-suitable record yields exactly one
upsert, and an unchanged stored copy of the same record yields zero. -/
theorem claim_C3_witness :
    fac_case_mutations true c3Raw none = 1
    ∧ fac_case_mutations true c3Raw
        (some { id := c3Raw.id, case_id := c3Raw.case_id, title := c3Raw.title,
                date := some c3Raw.date, location := c3Raw.location,
                municipality := c3Raw.municipality, status := c3Raw.status,
                url := none, lan := c3Raw.lan, sender := c3Raw.sender,
                description := none, decision_date := none,
                last_updated_from_source := some c1Now, details_fetched := false,
                details_fetch_attempts := 0 }) = 0 := by
  constructor
  · exact claim_C3.2.1 c3Raw (by decide)
  · exact claim_C3.1 true c3Raw _ c1Now rfl (by decide) rfl rfl rfl rfl

/-- Counterexample for C4 as stated: six consecutive failed
`fetch_bookmarked_details` operations on a fresh case drive
`details_fetch_attempts` to 6, past the ceiling of 5, with
`details_fetched` still false and no terminal decision recorded anywhere
in the data model. -/
theorem claim_C4_counterexample :
    run_detail_ops fbd_step (List.replicate 6 DetailFetchOutcome.noDetails)
      { details_fetched := false, details_fetch_attempts := 0 }
      = { details_fetched := false, details_fetch_attempts := 6 }
    ∧ 5 < 6 := by
  refine ⟨by decide, by decide⟩

/-- Claim C4 (amended): no code path enforces the ceiling of 5. Each
failed detail-fetch operation increments the counter by at most one, but
`fetch_bookmarked_details` increments it by exactly one per failure with
no bound (n failures add n), and even `fetch_case_details_background`,
whose failure path undoes its up-front increment, stops protecting once
the committed counter reaches 4: from there every failure adds one
permanently, without `details_fetched` becoming true and without any
terminal stop-retrying marker. -/
theorem claim_C4 :
    (∀ (out : DetailFetchOutcome) (s : CaseDetailCounters),
      (fbd_step out s).details_fetch_attempts ≤ s.details_fetch_attempts + 1
      ∧ (fcdb_step out s).details_fetch_attempts ≤ s.details_fetch_attempts + 1)
    ∧ (∀ (n : Nat) (s : CaseDetailCounters),
        run_detail_ops fbd_step (List.replicate n DetailFetchOutcome.noDetails) s
          = { s with details_fetch_attempts := s.details_fetch_attempts + n })
    ∧ (∀ (out : DetailFetchOutcome) (s : CaseDetailCounters),
        (out = DetailFetchOutcome.noDetails ∨ out = DetailFetchOutcome.raised) →
        s.details_fetch_attempts < 4 → fcdb_step out s = s)
    ∧ (∀ (out : DetailFetchOutcome) (s : CaseDetailCounters),
        (out = DetailFetchOutcome.noDetails ∨ out = DetailFetchOutcome.raised) →
        4 ≤ s.details_fetch_attempts →
        (fcdb_step out s).details_fetch_attempts = s.details_fetch_attempts + 1
        ∧ (fcdb_step out s).details_fetched = s.details_fetched) := by
  refine ⟨?_, ?_, ?_, ?_⟩
  · intro out s
    constructor
    · cases out <;> simp [fbd_step]
    · cases s with
      | mk fet att =>
        cases out
        · simp [fcdb_step]
        · simp only [fcdb_step]
          split <;> simp
        · simp only [fcdb_step]
          split <;> simp
  · intro n
    induction n with
    | zero =>
      intro s
      cases s
      simp [run_detail_ops]
    | succ k ih =>
      intro s
      have he : run_detail_ops fbd_step
          (List.replicate (k + 1) DetailFetchOutcome.noDetails) s
        = run_detail_ops fbd_step (List.replicate k DetailFetchOutcome.noDetails)
            (fbd_step DetailFetchOutcome.noDetails s) := by
        simp [run_detail_ops, List.replicate_succ]
      rw [he, ih]
      cases s with
      | mk fet att =>
        simp [fbd_step, CaseDetailCounters.mk.injEq]
        omega
  · intro out s hout h
    rcases hout with rfl | rfl <;>
      cases s with
      | mk fet att =>
        simp only [fcdb_step]
        rw [if_pos (by simp at h ⊢; omega)]
        simp
  · intro out s hout h
    rcases hout with rfl | rfl <;>
      cases s with
      | mk fet att =>
        simp only [fcdb_step]
        rw [if_neg (by simp at h ⊢; omega)]
        simp

/-- Witness for C4: a single failed background-task fetch on a case with
4 recorded attempts pushes the counter to 5, and one on a case with 5
attempts pushes it to 6. -/
theorem claim_C4_witness :
    (fcdb_step DetailFetchOutcome.noDetails
      { details_fetched := false, details_fetch_attempts := 5 }).details_fetch_attempts
      = 6
    ∧ (fcdb_step DetailFetchOutcome.noDetails
      { details_fetched := false, details_fetch_attempts := 2 })
      = { details_fetched := false, details_fetch_attempts := 2 } := by
  constructor
  · exact (claim_C4.2.2.2 DetailFetchOutcome.noDetails _ (Or.inl rfl) (by decide)).1
  · exact claim_C4.2.2.1 DetailFetchOutcome.noDetails _ (Or.inl rfl) (by decide)

theorem batch_fold_spec (outcomes : List RecordOutcome) : ∀ init : BatchSnapshot,
    (outcomes.foldl (fun s r => batch_step r s) init).processed
        = init.processed + outcomes.length
    ∧ (outcomes.foldl (fun s r => batch_step r s) init).failed
        = init.failed + countFailures outcomes
    ∧ (outcomes.foldl (fun s r => batch_step r s) init).successful
        = init.successful + countOk outcomes
    ∧ (outcomes.foldl (fun s r => batch_step r s) init).total_cases = init.total_cases
    ∧ (outcomes.foldl (fun s r => batch_step r s) init).status = init.status := by
  induction outcomes with
  | nil =>
    intro init
    simp [countFailures, countOk]
  | cons r rs ih =>
    intro init
    obtain ⟨h1, h2, h3, h4, h5⟩ := ih (batch_step r init)
    cases r with
    | ok c =>
      refine ⟨?_, ?_, ?_, ?_, ?_⟩ <;>
        simp only [List.foldl_cons, h1, h2, h3, h4, h5]
      all_goals simp [batch_step, countFailures, countOk, List.countP_cons]
      all_goals omega
    | failure m q =>
      refine ⟨?_, ?_, ?_, ?_, ?_⟩ <;>
        simp only [List.foldl_cons, h1, h2, h3, h4, h5]
      all_goals simp [batch_step, countFailures, countOk, List.countP_cons]
      all_goals omega

/-- Counterexample for C8 as stated: the classification collaborator
reports exhausted quota on record 2 of a 10-record batch, but
`_categorize_case` converts the quota exception into an ordinary failure
and the loop continues through all remaining records: the final snapshot
has status `completed_with_errors` and `processed = 10`, not
`quota_exceeded` and `processed = 2`. -/
theorem claim_C8_counterexample :
    (batch_categorize_final c8Outcomes).status = BatchStatus.completed_with_errors
    ∧ (batch_categorize_final c8Outcomes).status ≠ BatchStatus.quota_exceeded
    ∧ (batch_categorize_final c8Outcomes).processed = 10 := by
  refine ⟨by decide, by decide, by decide⟩

/-- Claim C8 (amended): the final snapshot's status is `completed`
exactly when zero records failed, `completed_with_errors` exactly when
some but not all failed, and `failed` exactly when all of a nonempty
batch failed; there is no `quota_exceeded` short-circuit — quota errors
are counted as ordinary failures and the whole batch is processed, so
`processed` always equals the batch size. -/
theorem claim_C8 : ∀ outcomes : List RecordOutcome,
    (batch_categorize_final outcomes).processed = outcomes.length
    ∧ (batch_categorize_final outcomes).failed = countFailures outcomes
    ∧ (batch_categorize_final outcomes).status ≠ BatchStatus.quota_exceeded
    ∧ ((batch_categorize_final outcomes).status = BatchStatus.failed
        ↔ countFailures outcomes = outcomes.length ∧ outcomes ≠ [])
    ∧ ((batch_categorize_final outcomes).status = BatchStatus.completed
        ↔ countFailures outcomes = 0)
    ∧ ((batch_categorize_final outcomes).status = BatchStatus.completed_with_errors
        ↔ 0 < countFailures outcomes ∧ countFailures outcomes < outcomes.length) := by
  intro outcomes
  by_cases hne : outcomes.isEmpty = true
  · have h0 : outcomes = [] := by
      cases outcomes with
      | nil => rfl
      | cons a l => simp at hne
    subst h0
    refine ⟨rfl, by decide, by decide, ?_, ?_, ?_⟩
    · exact iff_of_false (by decide) (fun h => h.2 rfl)
    · exact iff_of_true (by decide) (by decide)
    · exact iff_of_false (by decide) (by decide)
  · simp only [Bool.not_eq_true] at hne
    have hlen : 1 ≤ outcomes.length := by
      cases outcomes with
      | nil => simp at hne
      | cons a l => simp
    have hnil : outcomes ≠ [] := by
      cases outcomes with
      | nil => simp at hne
      | cons a l => simp
    have hcf : countFailures outcomes ≤ outcomes.length := List.countP_le_length _
    obtain ⟨h1, h2, h3, h4, h5⟩ := batch_fold_spec outcomes
      { processed := 0, successful := 0, failed := 0,
        total_cases := outcomes.length, status := BatchStatus.in_progress,
        errors := [] }
    have hp : (batch_categorize_final outcomes).processed = outcomes.length := by
      simp only [batch_categorize_final, hne, Bool.false_eq_true, if_false]
      simp [h1]
    have hf : (batch_categorize_final outcomes).failed = countFailures outcomes := by
      simp only [batch_categorize_final, hne, Bool.false_eq_true, if_false]
      simp [h2]
    have hs : (batch_categorize_final outcomes).status
        = (if countFailures outcomes = outcomes.length then BatchStatus.failed
           else if 0 < countFailures outcomes then BatchStatus.completed_with_errors
           else BatchStatus.completed) := by
      simp only [batch_categorize_final, hne, Bool.false_eq_true, if_false]
      simp [h2, h4]
    refine ⟨hp, hf, ?_, ?_, ?_, ?_⟩
    · rw [hs]; split_ifs <;> decide
    · rw [hs]; split_ifs with hA hB
      · exact iff_of_true rfl ⟨hA, hnil⟩
      · exact iff_of_false (by decide) (fun h => hA h.1)
      · exact iff_of_false (by decide) (fun h => hA h.1)
    · rw [hs]; split_ifs with hA hB
      · exact iff_of_false (by decide) (by omega)
      · exact iff_of_false (by decide) (by omega)
      · exact iff_of_true rfl (by omega)
    · rw [hs]; split_ifs with hA hB
      · exact iff_of_false (by decide) (by omega)
      · exact iff_of_true rfl ⟨hB, by omega⟩
      · exact iff_of_false (by decide) (by omega)

/-- Claim C9: no unhandled fault propagates past the per-partition loop of
`fetch_all_cases`: every per-partition outcome, including exceptions from
fetching and processing, is caught by the per-lan handlers, so the
run-level result is always a summary — in particular also when every
partition fails. -/
theorem claim_C9 :
    (∀ (lans : List (List Char)) (run : List Char → LanRunOutcome),
      ∃ s, fetch_all_cases lans run = Except.ok s)
    ∧ (∀ (lans : List (List Char)) (e : List Char),
        fetch_all_cases lans (fun _ => LanRunOutcome.fetchError e)
          = Except.ok { total_cases_checked := 0, total_medla_cases := 0 })
    ∧ (∀ (run : List Char → LanRunOutcome) (acc : FacSummary) (lan e : List Char),
        run lan = LanRunOutcome.fetchError e ∨ run lan = LanRunOutcome.outerError e →
        fac_lan_step run acc lan = acc) := by
  refine ⟨?_, ?_, ?_⟩
  · intro lans run
    exact ⟨_, rfl⟩
  · intro lans e
    have h : ∀ (l : List (List Char)) (acc : FacSummary),
        l.foldl (fac_lan_step (fun _ => LanRunOutcome.fetchError e)) acc = acc := by
      intro l
      induction l with
      | nil => intro acc; rfl
      | cons x xs ih =>
        intro acc
        simp [List.foldl_cons, fac_lan_step, fac_lan_body, ih]
    simp [fetch_all_cases, h]
  · intro run acc lan e hout
    rcases hout with h | h <;> simp [fac_lan_step, fac_lan_body, h]

/-- Witness for C9: one failing partition leaves the summary unchanged. -/
theorem claim_C9_witness :
    fac_lan_step (fun _ => LanRunOutcome.outerError (("boom").data))
      { total_cases_checked := 3, total_medla_cases := 1 } (("Stockholm").data)
      = { total_cases_checked := 3, total_medla_cases := 1 } :=
  claim_C9.2.2 _ _ _ (("boom").data) (Or.inr rfl)
